import Mathlib

/-!
# Auroprint (Godot GDExtension): attestation result bridging and signal dispatch

A shallow embedding of `auroprint_result.cpp`, `auroprint.cpp` and
`auroprint_android.cpp`.

* Godot strings are Lean strings, `int64_t` values are integers, `godot::Array`
  is a list of variants, `godot::Dictionary` is an insertion-ordered
  association list.
* C++ exceptions are values of `Thrown`; a function that may throw returns
  `Except Thrown _` next to the state it leaves behind.
* `call_deferred` appends to the message queue of the service; the provider
  layer (`_platform_*`) cannot reach that queue, it only sees `Platform`.
* The build-time choice of the provider (`#if ANDROID_ENABLED ... #else`) is a
  value of `PlatformImpl` handed to the service functions.
-/

namespace Auroprint

/-! ## Values -/

/-- The kinds of `godot::Variant` this program stores in results and signals. -/
inductive Variant where
  | nil
  | bool (b : Bool)
  | int (i : Int)
  | string (s : String)
  | array (items : List Variant)

/-- The `Variant::Type` tag of a value. -/
inductive VariantType where
  | NIL | BOOL | INT | STRING | ARRAY
  deriving DecidableEq, Repr

/-- Type tag of a variant. -/
def Variant.get_type : Variant → VariantType
  | .nil => .NIL
  | .bool _ => .BOOL
  | .int _ => .INT
  | .string _ => .STRING
  | .array _ => .ARRAY

/-! ## `AuroprintResult` (auroprint_result.h / auroprint_result.cpp) -/

/-- The private fields of class `AuroprintResult`. -/
structure AuroprintResult where
  device_id : String
  payload : String
  signature : String
  public_key : String
  attestation_chain : List Variant
  timestamp : Int
  nonce : String
  is_hardware_backed : Bool

namespace AuroprintResult

/-- The constructor `AuroprintResult::AuroprintResult()`. -/
def new : AuroprintResult :=
  { device_id := ""
    payload := ""
    signature := ""
    public_key := ""
    attestation_chain := []
    timestamp := 0
    nonce := ""
    is_hardware_backed := false }

def get_device_id (r : AuroprintResult) : String := r.device_id
def get_payload (r : AuroprintResult) : String := r.payload
def get_signature (r : AuroprintResult) : String := r.signature
def get_public_key (r : AuroprintResult) : String := r.public_key
def get_attestation_chain (r : AuroprintResult) : List Variant := r.attestation_chain
def get_timestamp (r : AuroprintResult) : Int := r.timestamp
def get_nonce (r : AuroprintResult) : String := r.nonce
def get_is_hardware_backed (r : AuroprintResult) : Bool := r.is_hardware_backed

def set_device_id (r : AuroprintResult) (p_device_id : String) : AuroprintResult :=
  { r with device_id := p_device_id }
def set_payload (r : AuroprintResult) (p_payload : String) : AuroprintResult :=
  { r with payload := p_payload }
def set_signature (r : AuroprintResult) (p_signature : String) : AuroprintResult :=
  { r with signature := p_signature }
def set_public_key (r : AuroprintResult) (p_public_key : String) : AuroprintResult :=
  { r with public_key := p_public_key }
def set_attestation_chain (r : AuroprintResult) (p_chain : List Variant) : AuroprintResult :=
  { r with attestation_chain := p_chain }
def set_timestamp (r : AuroprintResult) (p_timestamp : Int) : AuroprintResult :=
  { r with timestamp := p_timestamp }
def set_nonce (r : AuroprintResult) (p_nonce : String) : AuroprintResult :=
  { r with nonce := p_nonce }
def set_is_hardware_backed (r : AuroprintResult) (p_is_hw_backed : Bool) : AuroprintResult :=
  { r with is_hardware_backed := p_is_hw_backed }

end AuroprintResult

/-- A `godot::Dictionary` whose keys are strings, in insertion order. -/
abbrev Dictionary := List (String × Variant)

namespace Dictionary

/-- The assignment `dict[key] = value`: overwrite the entry of an existing key
in place, append a new entry otherwise. -/
def set : Dictionary → String → Variant → Dictionary
  | [], key, value => [(key, value)]
  | (k, v) :: rest, key, value =>
    if k = key then (k, value) :: rest else (k, v) :: set rest key value

/-- The lookup `dict[key]` of a key, `none` when the key is absent. -/
def get (d : Dictionary) (key : String) : Option Variant :=
  List.lookup key d

/-- The list `dict.keys()`. -/
def keys (d : Dictionary) : List String :=
  d.map Prod.fst

end Dictionary

/-- The method `AuroprintResult::to_dictionary`. -/
def AuroprintResult.to_dictionary (r : AuroprintResult) : Dictionary :=
  let dict : Dictionary := []
  let dict := dict.set "device_id" (.string r.device_id)
  let dict := dict.set "payload" (.string r.payload)
  let dict := dict.set "signature" (.string r.signature)
  let dict := dict.set "public_key" (.string r.public_key)
  let dict := dict.set "attestation_chain" (.array r.attestation_chain)
  let dict := dict.set "timestamp" (.int r.timestamp)
  let dict := dict.set "nonce" (.string r.nonce)
  let dict := dict.set "is_hardware_backed" (.bool r.is_hardware_backed)
  dict

/-- The methods that `AuroprintResult::_bind_methods` registers with `ClassDB`
and so exposes to scripts, each with the argument the caller passes. The
eight properties added with `ADD_PROPERTY` read and write through these
getters and setters. -/
inductive AuroprintResult.BoundMethod where
  | get_device_id
  | get_payload
  | get_signature
  | get_public_key
  | get_attestation_chain
  | get_timestamp
  | get_nonce
  | get_is_hardware_backed
  | set_device_id (device_id : String)
  | set_payload (payload : String)
  | set_signature (signature : String)
  | set_public_key (public_key : String)
  | set_attestation_chain (attestation_chain : List Variant)
  | set_timestamp (timestamp : Int)
  | set_nonce (nonce : String)
  | set_is_hardware_backed (is_hardware_backed : Bool)
  | to_dictionary

/-- The object after a bound method has been called on it: the getters and
`to_dictionary` are `const` member functions, a setter runs its assignment. -/
def AuroprintResult.BoundMethod.call :
    AuroprintResult.BoundMethod → AuroprintResult → AuroprintResult
  | .get_device_id, r => r
  | .get_payload, r => r
  | .get_signature, r => r
  | .get_public_key, r => r
  | .get_attestation_chain, r => r
  | .get_timestamp, r => r
  | .get_nonce, r => r
  | .get_is_hardware_backed, r => r
  | .set_device_id device_id, r => r.set_device_id device_id
  | .set_payload payload, r => r.set_payload payload
  | .set_signature signature, r => r.set_signature signature
  | .set_public_key public_key, r => r.set_public_key public_key
  | .set_attestation_chain attestation_chain, r => r.set_attestation_chain attestation_chain
  | .set_timestamp timestamp, r => r.set_timestamp timestamp
  | .set_nonce nonce, r => r.set_nonce nonce
  | .set_is_hardware_backed is_hardware_backed, r =>
    r.set_is_hardware_backed is_hardware_backed
  | .to_dictionary, r => r

/-! ## The service `Auroprint` (auroprint.h / auroprint.cpp) -/

/-- What a C++ `throw` carries, as the two `catch` clauses of the workers see
it: an object derived from `std::exception` with its `what()` text, or
anything else (caught by `catch (...)`). -/
inductive Thrown where
  | std_exception (what : String)
  | other
  deriving DecidableEq, Repr

/-- Priority of an Android log line. -/
inductive LogPriority where
  | DEBUG | ERROR
  deriving DecidableEq, Repr

/-- Calls through `JavaVM*` / `JNIEnv*` that attach to the foreign runtime,
look something up in it, construct an object or invoke a method, as made by
`get_jni_env`, `get_activity`, `get_kotlin_plugin_instance` and the
`_platform_*` functions. Reference bookkeeping (`DeleteLocalRef`), string
copies and the reads that decode a returned object are not recorded. -/
inductive JniCall where
  | GetEnv
  | AttachCurrentThread
  | FindClass (name : String)
  | GetStaticMethodID (cls name sig : String)
  | GetMethodID (cls name sig : String)
  | CallStaticObjectMethod (method : String)
  | CallObjectMethod (method : String)
  | CallBooleanMethod (method : String)
  | CallVoidMethod (method : String)
  | NewObject (cls : String)
  | ExceptionCheck
  | ExceptionDescribe
  | ExceptionClear
  deriving DecidableEq, Repr

/-- The state the provider layer can observe and change: warnings pushed with
`UtilityFunctions::push_warning`, lines written with `__android_log_print`,
the calls made into the foreign runtime, each oldest first, and whether a
Java exception is pending on the calling thread, which is what
`env->ExceptionCheck()` reads and `env->ExceptionClear()` resets. -/
structure Platform where
  warnings : List String
  logcat : List (LogPriority × String)
  jni : List JniCall
  pending_exception : Bool

namespace Platform

/-- A platform on which nothing has happened yet. -/
def fresh : Platform :=
  { warnings := [], logcat := [], jni := [], pending_exception := false }

def push_warning (p : Platform) (msg : String) : Platform :=
  { p with warnings := p.warnings ++ [msg] }

def LOGD (p : Platform) (msg : String) : Platform :=
  { p with logcat := p.logcat ++ [(.DEBUG, msg)] }

def LOGE (p : Platform) (msg : String) : Platform :=
  { p with logcat := p.logcat ++ [(.ERROR, msg)] }

/-- Record a call into the foreign runtime that raises no Java exception. -/
def call (p : Platform) (c : JniCall) : Platform :=
  { p with jni := p.jni ++ [c] }

/-- Record a JNI lookup or construction (`FindClass`, `GetStaticMethodID`,
`GetMethodID`, `NewObject`): when it answers null it leaves a Java exception
pending on the thread. -/
def lookup (p : Platform) (c : JniCall) (found : Bool) : Platform :=
  { p with jni := p.jni ++ [c], pending_exception := p.pending_exception || !found }

/-- Record the call of a method of the companion object: when the method
raises, the Java exception is pending on the thread from then on. -/
def invoke (p : Platform) (c : JniCall) (raised : Bool) : Platform :=
  { p with jni := p.jni ++ [c], pending_exception := p.pending_exception || raised }

/-- The call `env->ExceptionClear()`. -/
def ExceptionClear (p : Platform) : Platform :=
  { p with jni := p.jni ++ [.ExceptionClear], pending_exception := false }

end Platform

/-- A provider call: it starts in a platform state and either returns a value
or throws, leaving a platform state behind. -/
abbrev Provider (α : Type) := Platform → Except Thrown α × Platform

/-- The four `_platform_*` member functions, one set per build target. -/
structure PlatformImpl where
  _platform_generate_auroprint : Provider AuroprintResult
  _platform_is_hardware_backed_available : Provider Bool
  _platform_reset_key : Provider Unit
  _platform_request_integrity_token : String → Int → Provider String

/-- An argument of a deferred call: a plain variant or a `Ref<AuroprintResult>`. -/
inductive CallArg where
  | variant (v : Variant)
  | object (r : AuroprintResult)

/-- One entry of the message queue: `call_deferred(method, args...)`. -/
structure DeferredCall where
  method : String
  args : List CallArg

/-- The service object: the platform it runs on and the deferred calls it has
scheduled, oldest first. -/
structure Service where
  platform : Platform
  message_queue : List DeferredCall

namespace Service

/-- A service on which nothing has happened yet. -/
def fresh : Service := { platform := Platform.fresh, message_queue := [] }

/-- The call `call_deferred(method, args...)`. -/
def call_deferred (s : Service) (method : String) (args : List CallArg) : Service :=
  { s with message_queue := s.message_queue ++ [{ method := method, args := args }] }

end Service

/-- The deferred call `call_deferred("emit_signal", name, payload...)`. -/
def emit_signal (name : String) (payload : List CallArg) : DeferredCall :=
  { method := "emit_signal", args := .variant (.string name) :: payload }

/-- The worker `Auroprint::_generate_auroprint_worker`. -/
def _generate_auroprint_worker (impl : PlatformImpl) (s : Service) :
    Except Thrown Unit × Service :=
  match impl._platform_generate_auroprint s.platform with
  | (.ok result, p) =>
    (.ok (), Service.call_deferred { s with platform := p } "emit_signal"
      [.variant (.string "auroprint_generated"), .object result])
  | (.error (.std_exception what), p) =>
    let error_msg := "Failed to generate auroprint: " ++ what
    (.ok (), Service.call_deferred { s with platform := p } "emit_signal"
      [.variant (.string "auroprint_error"), .variant (.string error_msg)])
  | (.error .other, p) =>
    (.ok (), Service.call_deferred { s with platform := p } "emit_signal"
      [.variant (.string "auroprint_error"),
       .variant (.string "Unknown error occurred while generating auroprint")])

/-- The worker `Auroprint::_is_hardware_backed_available_worker`. -/
def _is_hardware_backed_available_worker (impl : PlatformImpl) (s : Service) :
    Except Thrown Unit × Service :=
  match impl._platform_is_hardware_backed_available s.platform with
  | (.ok available, p) =>
    (.ok (), Service.call_deferred { s with platform := p } "emit_signal"
      [.variant (.string "hardware_backed_result"), .variant (.bool available)])
  | (.error (.std_exception what), p) =>
    let error_msg := "Failed to check hardware support: " ++ what
    (.ok (), Service.call_deferred { s with platform := p } "emit_signal"
      [.variant (.string "auroprint_error"), .variant (.string error_msg)])
  | (.error .other, p) =>
    (.ok (), Service.call_deferred { s with platform := p } "emit_signal"
      [.variant (.string "auroprint_error"),
       .variant (.string "Unknown error occurred while checking hardware support")])

/-- The worker `Auroprint::_reset_key_worker`. -/
def _reset_key_worker (impl : PlatformImpl) (s : Service) :
    Except Thrown Unit × Service :=
  match impl._platform_reset_key s.platform with
  | (.ok (), p) =>
    (.ok (), Service.call_deferred { s with platform := p } "emit_signal"
      [.variant (.string "key_reset_complete")])
  | (.error (.std_exception what), p) =>
    let error_msg := "Failed to reset key: " ++ what
    (.ok (), Service.call_deferred { s with platform := p } "emit_signal"
      [.variant (.string "auroprint_error"), .variant (.string error_msg)])
  | (.error .other, p) =>
    (.ok (), Service.call_deferred { s with platform := p } "emit_signal"
      [.variant (.string "auroprint_error"),
       .variant (.string "Unknown error occurred while resetting key")])

/-- The worker `Auroprint::_request_integrity_token_worker`. -/
def _request_integrity_token_worker (impl : PlatformImpl) (nonce : String)
    (cloud_project_number : Int) (s : Service) : Except Thrown Unit × Service :=
  match impl._platform_request_integrity_token nonce cloud_project_number s.platform with
  | (.ok token, p) =>
    (.ok (), Service.call_deferred { s with platform := p } "emit_signal"
      [.variant (.string "integrity_token_received"), .variant (.string token)])
  | (.error (.std_exception what), p) =>
    let error_msg := "Failed to request integrity token: " ++ what
    (.ok (), Service.call_deferred { s with platform := p } "emit_signal"
      [.variant (.string "integrity_token_error"), .variant (.string error_msg)])
  | (.error .other, p) =>
    (.ok (), Service.call_deferred { s with platform := p } "emit_signal"
      [.variant (.string "integrity_token_error"),
       .variant (.string "Unknown error occurred while requesting integrity token")])

/-- The public method `Auroprint::generate_auroprint`. -/
def generate_auroprint (impl : PlatformImpl) (s : Service) : Except Thrown Unit × Service :=
  _generate_auroprint_worker impl s

/-- The public method `Auroprint::is_hardware_backed_available`. -/
def is_hardware_backed_available (impl : PlatformImpl) (s : Service) :
    Except Thrown Unit × Service :=
  _is_hardware_backed_available_worker impl s

/-- The public method `Auroprint::reset_key`. -/
def reset_key (impl : PlatformImpl) (s : Service) : Except Thrown Unit × Service :=
  _reset_key_worker impl s

/-- The public method `Auroprint::request_integrity_token`. -/
def request_integrity_token (impl : PlatformImpl) (nonce : String)
    (cloud_project_number : Int) (s : Service) : Except Thrown Unit × Service :=
  _request_integrity_token_worker impl nonce cloud_project_number s

/-! ## The desktop stub (auroprint.cpp, neither ANDROID_ENABLED nor IOS_ENABLED) -/

namespace Stub

/-- The stub `Auroprint::_platform_generate_auroprint`. -/
def _platform_generate_auroprint : Provider AuroprintResult := fun p =>
  let result := AuroprintResult.new
  let result := result.set_device_id "desktop-stub-id"
  let result := result.set_payload
    "\x7b\"did\":\"desktop-stub-id\",\"ts\":0,\"nonce\":\"stub\"\x7d"
  let result := result.set_signature "stub-signature"
  let result := result.set_public_key "stub-public-key"
  let result := result.set_attestation_chain []
  let result := result.set_timestamp 0
  let result := result.set_nonce "stub-nonce"
  let result := result.set_is_hardware_backed false
  let p := p.push_warning
    "Auroprint: Desktop platform detected. Returning stub data. Hardware-backed security is only available on Android/iOS."
  (.ok result, p)

/-- The stub `Auroprint::_platform_is_hardware_backed_available`. -/
def _platform_is_hardware_backed_available : Provider Bool := fun p =>
  (.ok false, p)

/-- The stub `Auroprint::_platform_reset_key`. -/
def _platform_reset_key : Provider Unit := fun p =>
  (.ok (), p.push_warning "Auroprint: reset_key() is not supported on desktop platforms")

/-- The stub `Auroprint::_platform_request_integrity_token`. -/
def _platform_request_integrity_token (_nonce : String) (_cloud_project_number : Int) :
    Provider String := fun p =>
  (.error (.std_exception "Integrity tokens are only supported on Android"), p)

/-- The provider compiled in on desktop targets. -/
def impl : PlatformImpl :=
  { _platform_generate_auroprint := _platform_generate_auroprint
    _platform_is_hardware_backed_available := _platform_is_hardware_backed_available
    _platform_reset_key := _platform_reset_key
    _platform_request_integrity_token := _platform_request_integrity_token }

end Stub

/-! ## The Android provider (auroprint_android.cpp) -/

namespace Android

/-- The JNI status code `JNI_OK`. -/
def JNI_OK : Int := 0

/-- The JNI status code `JNI_EDETACHED`. -/
def JNI_EDETACHED : Int := -2

/-- A Java object as the bridge reads it. The bridge never inspects the
runtime class of a value it receives: it applies the accessor of the type it
expects. The record holds what each of those accessors yields for the object:
the characters behind `GetStringUTFChars`, the results of `longValue()` and
`booleanValue()`, and the elements (null or the characters of a string) that
`size()` and `get(i)` enumerate. Java strings, UTF-8 buffers and Godot strings
are identified by their characters. -/
structure JValue where
  utf_chars : String
  longValue : Int
  booleanValue : Bool
  elements : List (Option String)

namespace JValue

/-- A `java.lang.String`. -/
def ofString (s : String) : JValue :=
  { utf_chars := s, longValue := 0, booleanValue := false, elements := [] }

/-- A `java.lang.Long`. -/
def ofLong (n : Int) : JValue :=
  { utf_chars := "", longValue := n, booleanValue := false, elements := [] }

/-- A `java.lang.Boolean`. -/
def ofBoolean (b : Bool) : JValue :=
  { utf_chars := "", longValue := 0, booleanValue := b, elements := [] }

/-- A `java.util.List` of strings (null elements allowed). -/
def ofList (l : List (Option String)) : JValue :=
  { utf_chars := "", longValue := 0, booleanValue := false, elements := l }

end JValue

/-- A `java.util.HashMap` with string keys: `get` yields the value stored
under a key, or null when the key is absent or mapped to null. -/
structure HashMap where
  get : String → Option JValue

/-- What a `Call...Method` on the companion object hands back: the returned
value, and whether the method raised a Java exception, which then is pending
on the calling thread. -/
structure JCall (α : Type) where
  value : α
  exception_pending : Bool

/-- The foreign runtime as seen through `JNIEnv*`. Lookups and calls whose
result is only ever null-checked answer `true` for a non-null handle; a null
answer of the two getters `getInstance` and `getAndroidActivity` is a
returned null, not an exception. The four `...Sync` fields are the operations
of the Kotlin class `AuroprintPluginSync`. -/
structure JNIEnv where
  FindClass : String → Bool
  GetStaticMethodID : String → String → String → Bool
  GetMethodID : String → String → String → Bool
  getInstance : Bool
  getAndroidActivity : Bool
  NewObject : String → Bool
  generateAuroprintSync : JCall (Option HashMap)
  isHardwareBackedAvailableSync : JCall Bool
  resetKeySync : JCall Unit
  requestIntegrityTokenSync : Option String → Int → JCall (Option String)

/-- The foreign runtime as seen through `JavaVM*`: status code and
environment pointer produced by `GetEnv` and by `AttachCurrentThread`. -/
structure JavaVM where
  GetEnv : Int × Option JNIEnv
  AttachCurrentThread : Int × Option JNIEnv

/-- Class name of the Godot plugin singleton. -/
def AuroprintGodotPlugin : String := "com/madeofcode/auroprint/AuroprintGodotPlugin"

/-- Class name of the Kotlin companion object. -/
def AuroprintPluginSync : String := "com/madeofcode/auroprint/AuroprintPluginSync"

/-- The helper `AuroprintAndroid::get_jni_env`; `g_jvm` is the global pointer
set by `nativeInitialize` (null until then). -/
def get_jni_env (g_jvm : Option JavaVM) (p : Platform) : Option JNIEnv × Platform :=
  match g_jvm with
  | none => (none, p.LOGE "JavaVM not initialized - plugin may not have loaded properly")
  | some vm =>
    let p := p.call .GetEnv
    if vm.GetEnv.1 = JNI_EDETACHED then
      let p := p.call .AttachCurrentThread
      if vm.AttachCurrentThread.1 ≠ JNI_OK then
        (none, p.LOGE "Failed to attach thread to JVM")
      else
        (vm.AttachCurrentThread.2, p.LOGD "Thread attached to JVM")
    else
      (vm.GetEnv.2, p)

/-- The helper `AuroprintAndroid::get_activity`; the result is `true` for a
non-null activity. -/
def get_activity (g_jvm : Option JavaVM) (p : Platform) : Bool × Platform :=
  match get_jni_env g_jvm p with
  | (none, p) => (false, p.LOGE "Cannot get JNI environment")
  | (some env, p) =>
    let p := p.lookup (.FindClass AuroprintGodotPlugin) (env.FindClass AuroprintGodotPlugin)
    if !env.FindClass AuroprintGodotPlugin then
      (false, p.LOGE "Failed to find AuroprintGodotPlugin class")
    else
      let p := p.lookup (.GetStaticMethodID AuroprintGodotPlugin "getInstance"
          "()Lcom/madeofcode/auroprint/AuroprintGodotPlugin;")
        (env.GetStaticMethodID AuroprintGodotPlugin "getInstance"
          "()Lcom/madeofcode/auroprint/AuroprintGodotPlugin;")
      if !env.GetStaticMethodID AuroprintGodotPlugin "getInstance"
          "()Lcom/madeofcode/auroprint/AuroprintGodotPlugin;" then
        (false, p.LOGE "Failed to find getInstance method")
      else
        let p := p.call (.CallStaticObjectMethod "getInstance")
        if !env.getInstance then
          (false, p.LOGE "Plugin instance is null - plugin may not be loaded")
        else
          let p := p.lookup (.GetMethodID AuroprintGodotPlugin "getAndroidActivity"
              "()Landroid/app/Activity;")
            (env.GetMethodID AuroprintGodotPlugin "getAndroidActivity"
              "()Landroid/app/Activity;")
          if !env.GetMethodID AuroprintGodotPlugin "getAndroidActivity"
              "()Landroid/app/Activity;" then
            (false, p.LOGE "Failed to find getAndroidActivity method")
          else
            let p := p.call (.CallObjectMethod "getAndroidActivity")
            let activity := env.getAndroidActivity
            if !activity then
              (activity, p.LOGE "getActivity returned null")
            else
              (activity, p)

/-- The helper `AuroprintAndroid::godot_string_to_jstring`. -/
def godot_string_to_jstring (str : String) : Option String :=
  some str

/-- The helper `AuroprintAndroid::jstring_to_godot_string`. -/
def jstring_to_godot_string (jstr : Option String) : String :=
  match jstr with
  | none => ""
  | some utf_chars => utf_chars

/-- The helper `AuroprintAndroid::jobject_list_to_array`: the index loop over
`size()` and `get(i)` of a Java list. -/
def jobject_list_to_array (list : Option (List (Option String))) : List Variant :=
  match list with
  | none => []
  | some l =>
    let size := l.length
    (List.range size).foldl
      (fun result i =>
        match (l.get? i).join with
        | some jstr => result ++ [Variant.string (jstring_to_godot_string (some jstr))]
        | none => result)
      []

/-- The lambda `get_string` of `jobject_to_auroprint_result`. -/
def get_string (result_obj : HashMap) (key : String) : String :=
  match result_obj.get key with
  | some value => jstring_to_godot_string (some value.utf_chars)
  | none => ""

/-- The lambda `get_long` of `jobject_to_auroprint_result`. -/
def get_long (result_obj : HashMap) (key : String) : Int :=
  match result_obj.get key with
  | some value => value.longValue
  | none => 0

/-- The lambda `get_boolean` of `jobject_to_auroprint_result`. -/
def get_boolean (result_obj : HashMap) (key : String) : Bool :=
  match result_obj.get key with
  | some value => value.booleanValue == true
  | none => false

/-- The lambda `get_list` of `jobject_to_auroprint_result`. -/
def get_list (result_obj : HashMap) (key : String) : List Variant :=
  match result_obj.get key with
  | some value => jobject_list_to_array (some value.elements)
  | none => []

/-- The helper `AuroprintAndroid::jobject_to_auroprint_result`. -/
def jobject_to_auroprint_result (result_obj : Option HashMap) (p : Platform) :
    AuroprintResult × Platform :=
  let result := AuroprintResult.new
  match result_obj with
  | none => (result, p.LOGE "Received null result object")
  | some result_obj =>
    let result := result.set_device_id (get_string result_obj "deviceId")
    let result := result.set_payload (get_string result_obj "payload")
    let result := result.set_signature (get_string result_obj "signature")
    let result := result.set_public_key (get_string result_obj "publicKey")
    let result := result.set_attestation_chain (get_list result_obj "attestationChain")
    let result := result.set_timestamp (get_long result_obj "timestamp")
    let result := result.set_nonce (get_string result_obj "nonce")
    let result := result.set_is_hardware_backed (get_boolean result_obj "isHardwareBacked")
    (result, p)

/-- The helper `AuroprintAndroid::get_kotlin_plugin_instance`; the result is
`true` for a non-null companion object. -/
def get_kotlin_plugin_instance (g_jvm : Option JavaVM) (env : JNIEnv) (p : Platform) :
    Bool × Platform :=
  let p := p.lookup (.FindClass AuroprintPluginSync) (env.FindClass AuroprintPluginSync)
  if !env.FindClass AuroprintPluginSync then
    (false, p.LOGE "Failed to find Kotlin AuroprintPluginSync class")
  else
    match get_activity g_jvm p with
    | (false, p) => (false, p.LOGE "Failed to get Android context")
    | (true, p) =>
      let p := p.lookup
        (.GetMethodID AuroprintPluginSync "<init>" "(Landroid/content/Context;)V")
        (env.GetMethodID AuroprintPluginSync "<init>" "(Landroid/content/Context;)V")
      if !env.GetMethodID AuroprintPluginSync "<init>" "(Landroid/content/Context;)V" then
        (false, p.LOGE "Failed to find AuroprintPluginSync constructor")
      else
        let p := p.lookup (.NewObject AuroprintPluginSync) (env.NewObject AuroprintPluginSync)
        (env.NewObject AuroprintPluginSync, p)

/-- The Android `Auroprint::_platform_generate_auroprint`. -/
def _platform_generate_auroprint (g_jvm : Option JavaVM) : Provider AuroprintResult := fun p =>
  match get_jni_env g_jvm p with
  | (none, p) => (.error (.std_exception "Failed to get JNI environment"), p)
  | (some env, p) =>
    let p := p.LOGD "Generating auroprint via JNI..."
    match get_kotlin_plugin_instance g_jvm env p with
    | (false, p) => (.error (.std_exception "Failed to create Kotlin plugin instance"), p)
    | (true, p) =>
      let p := p.lookup (.FindClass AuroprintPluginSync) (env.FindClass AuroprintPluginSync)
      let p := p.lookup
        (.GetMethodID AuroprintPluginSync "generateAuroprintSync" "()Ljava/util/HashMap;")
        (env.GetMethodID AuroprintPluginSync "generateAuroprintSync" "()Ljava/util/HashMap;")
      if !env.GetMethodID AuroprintPluginSync "generateAuroprintSync"
          "()Ljava/util/HashMap;" then
        let p := p.LOGE "Failed to find generateAuroprintSync method - you may need to add this to the Kotlin plugin"
        (.error (.std_exception "generateAuroprintSync method not found in Kotlin plugin"), p)
      else
        let result_obj := env.generateAuroprintSync
        let p := p.invoke (.CallObjectMethod "generateAuroprintSync")
          result_obj.exception_pending
        let p := p.call .ExceptionCheck
        if p.pending_exception then
          let p := p.call .ExceptionDescribe
          let p := p.ExceptionClear
          (.error (.std_exception "Exception occurred while generating auroprint"), p)
        else
          let converted := jobject_to_auroprint_result result_obj.value p
          (.ok converted.1, converted.2.LOGD "Auroprint generated successfully")

/-- The Android `Auroprint::_platform_is_hardware_backed_available`. -/
def _platform_is_hardware_backed_available (g_jvm : Option JavaVM) : Provider Bool := fun p =>
  match get_jni_env g_jvm p with
  | (none, p) => (.error (.std_exception "Failed to get JNI environment"), p)
  | (some env, p) =>
    match get_kotlin_plugin_instance g_jvm env p with
    | (false, p) => (.error (.std_exception "Failed to create Kotlin plugin instance"), p)
    | (true, p) =>
      let p := p.lookup (.FindClass AuroprintPluginSync) (env.FindClass AuroprintPluginSync)
      let p := p.lookup
        (.GetMethodID AuroprintPluginSync "isHardwareBackedAvailableSync" "()Z")
        (env.GetMethodID AuroprintPluginSync "isHardwareBackedAvailableSync" "()Z")
      if !env.GetMethodID AuroprintPluginSync "isHardwareBackedAvailableSync" "()Z" then
        let p := p.LOGE "Failed to find isHardwareBackedAvailableSync method"
        (.error (.std_exception "isHardwareBackedAvailableSync method not found"), p)
      else
        let p := p.invoke (.CallBooleanMethod "isHardwareBackedAvailableSync")
          env.isHardwareBackedAvailableSync.exception_pending
        let available := env.isHardwareBackedAvailableSync.value
        (.ok (available == true), p)

/-- The Android `Auroprint::_platform_reset_key`. -/
def _platform_reset_key (g_jvm : Option JavaVM) : Provider Unit := fun p =>
  match get_jni_env g_jvm p with
  | (none, p) => (.error (.std_exception "Failed to get JNI environment"), p)
  | (some env, p) =>
    match get_kotlin_plugin_instance g_jvm env p with
    | (false, p) => (.error (.std_exception "Failed to create Kotlin plugin instance"), p)
    | (true, p) =>
      let p := p.lookup (.FindClass AuroprintPluginSync) (env.FindClass AuroprintPluginSync)
      let p := p.lookup (.GetMethodID AuroprintPluginSync "resetKeySync" "()V")
        (env.GetMethodID AuroprintPluginSync "resetKeySync" "()V")
      if !env.GetMethodID AuroprintPluginSync "resetKeySync" "()V" then
        let p := p.LOGE "Failed to find resetKeySync method"
        (.error (.std_exception "resetKeySync method not found"), p)
      else
        let p := p.invoke (.CallVoidMethod "resetKeySync") env.resetKeySync.exception_pending
        let p := p.call .ExceptionCheck
        if p.pending_exception then
          let p := p.call .ExceptionDescribe
          let p := p.ExceptionClear
          (.error (.std_exception "Exception occurred while resetting key"), p)
        else
          (.ok (), p)

/-- The Android `Auroprint::_platform_request_integrity_token`. -/
def _platform_request_integrity_token (g_jvm : Option JavaVM) (nonce : String)
    (cloud_project_number : Int) : Provider String := fun p =>
  match get_jni_env g_jvm p with
  | (none, p) => (.error (.std_exception "Failed to get JNI environment"), p)
  | (some env, p) =>
    match get_kotlin_plugin_instance g_jvm env p with
    | (false, p) => (.error (.std_exception "Failed to create Kotlin plugin instance"), p)
    | (true, p) =>
      let p := p.lookup (.FindClass AuroprintPluginSync) (env.FindClass AuroprintPluginSync)
      let p := p.lookup
        (.GetMethodID AuroprintPluginSync "requestIntegrityTokenSync"
          "(Ljava/lang/String;J)Ljava/lang/String;")
        (env.GetMethodID AuroprintPluginSync "requestIntegrityTokenSync"
          "(Ljava/lang/String;J)Ljava/lang/String;")
      if !env.GetMethodID AuroprintPluginSync "requestIntegrityTokenSync"
          "(Ljava/lang/String;J)Ljava/lang/String;" then
        let p := p.LOGE "Failed to find requestIntegrityTokenSync method"
        (.error (.std_exception "requestIntegrityTokenSync method not found"), p)
      else
        let jnonce := godot_string_to_jstring nonce
        let jcloud_num := cloud_project_number
        let result_str := env.requestIntegrityTokenSync jnonce jcloud_num
        let p := p.invoke (.CallObjectMethod "requestIntegrityTokenSync")
          result_str.exception_pending
        let p := p.call .ExceptionCheck
        if p.pending_exception then
          let p := p.call .ExceptionDescribe
          let p := p.ExceptionClear
          (.error (.std_exception "Exception occurred while requesting integrity token"), p)
        else
          let result := jstring_to_godot_string result_str.value
          (.ok result, p)

/-- The provider compiled in on Android targets, running against the foreign
runtime reachable through `g_jvm`. -/
def impl (g_jvm : Option JavaVM) : PlatformImpl :=
  { _platform_generate_auroprint := _platform_generate_auroprint g_jvm
    _platform_is_hardware_backed_available := _platform_is_hardware_backed_available g_jvm
    _platform_reset_key := _platform_reset_key g_jvm
    _platform_request_integrity_token := _platform_request_integrity_token g_jvm }

end Android

/-! ## Mocked foreign runtimes -/

namespace Android.Mock

/-- An environment in which every class, method and object lookup succeeds;
the four operations of the companion object answer as given. -/
def env (generate : JCall (Option HashMap)) (available : JCall Bool) (reset : JCall Unit)
    (token : Option String → Int → JCall (Option String)) : JNIEnv :=
  { FindClass := fun _ => true
    GetStaticMethodID := fun _ _ _ => true
    GetMethodID := fun _ _ _ => true
    getInstance := true
    getAndroidActivity := true
    NewObject := fun _ => true
    generateAuroprintSync := generate
    isHardwareBackedAvailableSync := available
    resetKeySync := reset
    requestIntegrityTokenSync := token }

/-- An initialised JavaVM whose calling thread is already attached to `e`. -/
def jvm (e : JNIEnv) : Option JavaVM :=
  some { GetEnv := (JNI_OK, some e), AttachCurrentThread := (JNI_OK, some e) }

/-- A response map holding seven of the eight keys: `deviceId` is absent. -/
def map_without_device_id : HashMap :=
  { get := fun key =>
      if key = "payload" then some (JValue.ofString "signed-payload")
      else if key = "signature" then some (JValue.ofString "sig")
      else if key = "publicKey" then some (JValue.ofString "pub")
      else if key = "attestationChain" then some (JValue.ofList [some "leaf", some "root"])
      else if key = "timestamp" then some (JValue.ofLong 1700000000000)
      else if key = "nonce" then some (JValue.ofString "n-1")
      else if key = "isHardwareBacked" then some (JValue.ofBoolean true)
      else none }

/-- A token service that answers the request ("abc123", 42) with a token and
raises on any other request. -/
def token_service (nonce : Option String) (cloud_project_number : Int) :
    JCall (Option String) :=
  if nonce = some "abc123" ∧ cloud_project_number = 42 then
    { value := some "eyJ.integrity.token", exception_pending := false }
  else
    { value := none, exception_pending := true }

/-- A runtime whose attestation generator returns `map_without_device_id`,
whose other operations complete normally. -/
def env_missing_key : JNIEnv :=
  env { value := some map_without_device_id, exception_pending := false }
    { value := true, exception_pending := false }
    { value := (), exception_pending := false }
    token_service

/-- A runtime in which every operation of the companion object raises a Java
exception; the calls hand back null, `false` and nothing. -/
def env_raising : JNIEnv :=
  env { value := none, exception_pending := true }
    { value := false, exception_pending := true }
    { value := (), exception_pending := true }
    (fun _ _ => { value := none, exception_pending := true })

/-- A response map holding all eight keys with values of the expected Java
types. -/
def complete_map : HashMap :=
  { get := fun key =>
      if key = "deviceId" then some (JValue.ofString "device-7")
      else if key = "payload" then some (JValue.ofString "signed-payload")
      else if key = "signature" then some (JValue.ofString "sig")
      else if key = "publicKey" then some (JValue.ofString "pub")
      else if key = "attestationChain" then
        some (JValue.ofList [some "leaf", some "intermediate", some "root"])
      else if key = "timestamp" then some (JValue.ofLong 1700000000000)
      else if key = "nonce" then some (JValue.ofString "n-1")
      else if key = "isHardwareBacked" then some (JValue.ofBoolean true)
      else none }

/-- A runtime whose attestation generator returns `complete_map` and whose
other operations complete normally. -/
def env_complete : JNIEnv :=
  env { value := some complete_map, exception_pending := false }
    { value := true, exception_pending := false }
    { value := (), exception_pending := false }
    token_service

/-- An initialised JavaVM whose calling thread is detached and cannot be
attached: `GetEnv` reports `JNI_EDETACHED`, `AttachCurrentThread` an error. -/
def jvm_attach_fails : Option JavaVM :=
  some { GetEnv := (JNI_EDETACHED, none), AttachCurrentThread := (-1, none) }

/-- A runtime in which everything is found but the construction of the
companion object yields null. -/
def env_construction_fails : JNIEnv :=
  { env_complete with NewObject := fun _ => false }

/-- A runtime in which only the hardware-availability check raises: the
attestation generator, the key reset and the token service complete. -/
def env_check_raises : JNIEnv :=
  env { value := some complete_map, exception_pending := false }
    { value := false, exception_pending := true }
    { value := (), exception_pending := false }
    token_service

end Android.Mock

/-! ## Vocabulary of the properties -/

namespace Android

/-- The calling thread gets the environment `env` from the JavaVM: `GetEnv`
hands it out, or `GetEnv` reports a detached thread and `AttachCurrentThread`
succeeds and hands it out. -/
def Attaches (vm : JavaVM) (env : JNIEnv) : Prop :=
  (vm.GetEnv.1 ≠ JNI_EDETACHED ∧ vm.GetEnv.2 = some env) ∨
  (vm.GetEnv.1 = JNI_EDETACHED ∧ vm.AttachCurrentThread.1 = JNI_OK ∧
    vm.AttachCurrentThread.2 = some env)

/-- The calling thread gets no environment: the JavaVM pointer is not
initialised, the thread is detached and the attach fails or hands out
nothing, or `GetEnv` hands out nothing. -/
def NoEnvironment (g_jvm : Option JavaVM) : Prop :=
  match g_jvm with
  | none => True
  | some vm =>
    (vm.GetEnv.1 = JNI_EDETACHED ∧ vm.AttachCurrentThread.1 ≠ JNI_OK) ∨
    (vm.GetEnv.1 = JNI_EDETACHED ∧ vm.AttachCurrentThread.1 = JNI_OK ∧
      vm.AttachCurrentThread.2 = none) ∨
    (vm.GetEnv.1 ≠ JNI_EDETACHED ∧ vm.GetEnv.2 = none)

/-- Every step towards the companion object succeeds: its class, the plugin
singleton class, `getInstance`, the singleton, `getAndroidActivity`, the
activity and the constructor are found, and the construction yields an
object. -/
def CompanionFound (env : JNIEnv) : Prop :=
  env.FindClass AuroprintPluginSync = true ∧
  env.FindClass AuroprintGodotPlugin = true ∧
  env.GetStaticMethodID AuroprintGodotPlugin "getInstance"
    "()Lcom/madeofcode/auroprint/AuroprintGodotPlugin;" = true ∧
  env.getInstance = true ∧
  env.GetMethodID AuroprintGodotPlugin "getAndroidActivity" "()Landroid/app/Activity;" = true ∧
  env.getAndroidActivity = true ∧
  env.GetMethodID AuroprintPluginSync "<init>" "(Landroid/content/Context;)V" = true ∧
  env.NewObject AuroprintPluginSync = true

/-- Some step towards the companion object fails: one of the two classes, of
the three methods, the singleton or the activity is not found, or the
construction yields null. -/
def CompanionLost (env : JNIEnv) : Prop :=
  env.FindClass AuroprintPluginSync = false ∨
  env.FindClass AuroprintGodotPlugin = false ∨
  env.GetStaticMethodID AuroprintGodotPlugin "getInstance"
    "()Lcom/madeofcode/auroprint/AuroprintGodotPlugin;" = false ∨
  env.getInstance = false ∨
  env.GetMethodID AuroprintGodotPlugin "getAndroidActivity" "()Landroid/app/Activity;" = false ∨
  env.getAndroidActivity = false ∨
  env.GetMethodID AuroprintPluginSync "<init>" "(Landroid/content/Context;)V" = false ∨
  env.NewObject AuroprintPluginSync = false

/-- The runtime handle cannot be obtained: the thread gets no environment, or
it gets one in which the companion object is lost. -/
def HandleLost (g_jvm : Option JavaVM) : Prop :=
  NoEnvironment g_jvm ∨
  ∃ vm env, g_jvm = some vm ∧ Attaches vm env ∧ CompanionLost env

end Android


/-- The signal a deferred `emit_signal` call will emit; `none` for a deferred
call of any other shape. -/
def DeferredCall.signal_name (c : DeferredCall) : Option String :=
  match c.args with
  | .variant (.string name) :: _ => if c.method = "emit_signal" then some name else none
  | _ => none

/-- The four public operations of the service. -/
inductive Operation where
  | generate_auroprint
  | is_hardware_backed_available
  | reset_key
  | request_integrity_token
  deriving DecidableEq, Repr

namespace Operation

/-- Invoke the public method of an operation; `nonce` and
`cloud_project_number` are the arguments of `request_integrity_token` and are
ignored by the other three. -/
def invoke (op : Operation) (impl : PlatformImpl) (nonce : String)
    (cloud_project_number : Int) (s : Service) : Except Thrown Unit × Service :=
  match op with
  | .generate_auroprint => Auroprint.generate_auroprint impl s
  | .is_hardware_backed_available => Auroprint.is_hardware_backed_available impl s
  | .reset_key => Auroprint.reset_key impl s
  | .request_integrity_token =>
    Auroprint.request_integrity_token impl nonce cloud_project_number s

/-- The signal registered in `_bind_methods` for the success of an operation. -/
def success_signal : Operation → String
  | .generate_auroprint => "auroprint_generated"
  | .is_hardware_backed_available => "hardware_backed_result"
  | .reset_key => "key_reset_complete"
  | .request_integrity_token => "integrity_token_received"

/-- The signal registered in `_bind_methods` for the failure of an operation. -/
def failure_signal : Operation → String
  | .generate_auroprint => "auroprint_error"
  | .is_hardware_backed_available => "auroprint_error"
  | .reset_key => "auroprint_error"
  | .request_integrity_token => "integrity_token_error"

/-- The method of the Kotlin companion object behind an operation, as the
call recorded when the Android provider invokes it. -/
def foreign_call : Operation → JniCall
  | .generate_auroprint => .CallObjectMethod "generateAuroprintSync"
  | .is_hardware_backed_available => .CallBooleanMethod "isHardwareBackedAvailableSync"
  | .reset_key => .CallVoidMethod "resetKeySync"
  | .request_integrity_token => .CallObjectMethod "requestIntegrityTokenSync"

/-- The text a worker puts in front of `e.what()` when the provider throws a
`std::exception`. -/
def error_intro : Operation → String
  | .generate_auroprint => "Failed to generate auroprint: "
  | .is_hardware_backed_available => "Failed to check hardware support: "
  | .reset_key => "Failed to reset key: "
  | .request_integrity_token => "Failed to request integrity token: "

/-- The message a worker emits from its `catch (...)` clause. -/
def unknown_error : Operation → String
  | .generate_auroprint => "Unknown error occurred while generating auroprint"
  | .is_hardware_backed_available => "Unknown error occurred while checking hardware support"
  | .reset_key => "Unknown error occurred while resetting key"
  | .request_integrity_token => "Unknown error occurred while requesting integrity token"

/-- The fault the provider of an operation throws when called in a platform
state; `none` when it returns. -/
def provider_fault (op : Operation) (impl : PlatformImpl) (nonce : String)
    (cloud_project_number : Int) (p : Platform) : Option Thrown :=
  match op with
  | .generate_auroprint =>
    match (impl._platform_generate_auroprint p).1 with
    | .ok _ => none
    | .error e => some e
  | .is_hardware_backed_available =>
    match (impl._platform_is_hardware_backed_available p).1 with
    | .ok _ => none
    | .error e => some e
  | .reset_key =>
    match (impl._platform_reset_key p).1 with
    | .ok _ => none
    | .error e => some e
  | .request_integrity_token =>
    match (impl._platform_request_integrity_token nonce cloud_project_number p).1 with
    | .ok _ => none
    | .error e => some e

/-- The platform state the provider of an operation leaves behind when called
in a platform state. -/
def provider_platform (op : Operation) (impl : PlatformImpl) (nonce : String)
    (cloud_project_number : Int) (p : Platform) : Platform :=
  match op with
  | .generate_auroprint => (impl._platform_generate_auroprint p).2
  | .is_hardware_backed_available => (impl._platform_is_hardware_backed_available p).2
  | .reset_key => (impl._platform_reset_key p).2
  | .request_integrity_token =>
    (impl._platform_request_integrity_token nonce cloud_project_number p).2

end Operation

/-- The deferred calls that a run from `before` to `after` has added to the
message queue. -/
def scheduled (before after : Service) : List DeferredCall :=
  after.message_queue.drop before.message_queue.length

/-- The calls into the foreign runtime that a run from `before` to `after` has
made. -/
def new_calls (before after : Service) : List JniCall :=
  after.platform.jni.drop before.platform.jni.length

/-- The service after `n` successive calls of `generate_auroprint`. -/
def generate_auroprint_times (impl : PlatformImpl) : Nat → Service → Service
  | 0, s => s
  | n + 1, s => (generate_auroprint impl (generate_auroprint_times impl n s)).2

/-! ## Properties of the service and of the stub provider -/

/-- C1: for each of the four operations and every behaviour of the provider,
one call lets no fault escape and appends exactly one deferred `emit_signal`
to the message queue: the success signal of the operation with the value the
provider returned when it returns, the failure signal of the operation
(`auroprint_error` for the first three, `integrity_token_error` for
`request_integrity_token`) with a message when it throws. -/
theorem exactly_one_notification_per_call (impl : PlatformImpl) (s : Service)
    (nonce : String) (cloud_project_number : Int) :
    (∃ n, generate_auroprint impl s =
        (.ok (), { platform := (impl._platform_generate_auroprint s.platform).2,
                   message_queue := s.message_queue ++ [n] }) ∧
      match (impl._platform_generate_auroprint s.platform).1 with
      | .ok result => n = emit_signal "auroprint_generated" [.object result]
      | .error _ => ∃ msg, n = emit_signal "auroprint_error" [.variant (.string msg)]) ∧
    (∃ n, is_hardware_backed_available impl s =
        (.ok (), { platform := (impl._platform_is_hardware_backed_available s.platform).2,
                   message_queue := s.message_queue ++ [n] }) ∧
      match (impl._platform_is_hardware_backed_available s.platform).1 with
      | .ok available => n = emit_signal "hardware_backed_result" [.variant (.bool available)]
      | .error _ => ∃ msg, n = emit_signal "auroprint_error" [.variant (.string msg)]) ∧
    (∃ n, reset_key impl s =
        (.ok (), { platform := (impl._platform_reset_key s.platform).2,
                   message_queue := s.message_queue ++ [n] }) ∧
      match (impl._platform_reset_key s.platform).1 with
      | .ok _ => n = emit_signal "key_reset_complete" []
      | .error _ => ∃ msg, n = emit_signal "auroprint_error" [.variant (.string msg)]) ∧
    (∃ n, request_integrity_token impl nonce cloud_project_number s =
        (.ok (), { platform :=
                     (impl._platform_request_integrity_token nonce cloud_project_number
                       s.platform).2,
                   message_queue := s.message_queue ++ [n] }) ∧
      match (impl._platform_request_integrity_token nonce cloud_project_number
          s.platform).1 with
      | .ok token => n = emit_signal "integrity_token_received" [.variant (.string token)]
      | .error _ => ∃ msg, n = emit_signal "integrity_token_error" [.variant (.string msg)]) := by
  refine ⟨?_, ?_, ?_, ?_⟩
  · rcases h : impl._platform_generate_auroprint s.platform with ⟨_ | _, p⟩
    · rename_i e
      cases e <;>
        simp [generate_auroprint, _generate_auroprint_worker, h, Service.call_deferred,
          emit_signal]
    · simp [generate_auroprint, _generate_auroprint_worker, h, Service.call_deferred,
        emit_signal]
  · rcases h : impl._platform_is_hardware_backed_available s.platform with ⟨_ | _, p⟩
    · rename_i e
      cases e <;>
        simp [is_hardware_backed_available, _is_hardware_backed_available_worker, h,
          Service.call_deferred, emit_signal]
    · simp [is_hardware_backed_available, _is_hardware_backed_available_worker, h,
        Service.call_deferred, emit_signal]
  · rcases h : impl._platform_reset_key s.platform with ⟨_ | _, p⟩
    · rename_i e
      cases e <;>
        simp [reset_key, _reset_key_worker, h, Service.call_deferred, emit_signal]
    · simp [reset_key, _reset_key_worker, h, Service.call_deferred, emit_signal]
  · rcases h : impl._platform_request_integrity_token nonce cloud_project_number s.platform
      with ⟨_ | _, p⟩
    · rename_i e
      cases e <;>
        simp [request_integrity_token, _request_integrity_token_worker, h,
          Service.call_deferred, emit_signal]
    · simp [request_integrity_token, _request_integrity_token_worker, h,
        Service.call_deferred, emit_signal]

/-- The stub provider returns the same fixed result in every platform state. -/
theorem Stub.generate_outcome (p : Platform) :
    (Stub._platform_generate_auroprint p).1 =
      .ok { device_id := "desktop-stub-id"
            payload := "\x7b\"did\":\"desktop-stub-id\",\"ts\":0,\"nonce\":\"stub\"\x7d"
            signature := "stub-signature"
            public_key := "stub-public-key"
            attestation_chain := []
            timestamp := 0
            nonce := "stub-nonce"
            is_hardware_backed := false } := by
  rfl

/-- C2: on the stub, a call of `generate_auroprint` made after any number `k`
of earlier calls, from any service state, lets no fault escape and schedules
exactly one `auroprint_generated` whose result has the non-empty device id
"desktop-stub-id", is not hardware backed and has an empty attestation chain;
the provider returns equal results (all eight fields) in any two platform
states. -/
theorem stub_generate_fixed_result (k : Nat) (s : Service) (p₁ p₂ : Platform) :
    (∃ r : AuroprintResult,
      (Stub.impl._platform_generate_auroprint
        (generate_auroprint_times Stub.impl k s).platform).1 = .ok r ∧
      (generate_auroprint Stub.impl (generate_auroprint_times Stub.impl k s)).1 = .ok () ∧
      (generate_auroprint Stub.impl (generate_auroprint_times Stub.impl k s)).2.message_queue =
        (generate_auroprint_times Stub.impl k s).message_queue ++
          [emit_signal "auroprint_generated" [.object r]] ∧
      r.device_id = "desktop-stub-id" ∧ r.device_id ≠ "" ∧
      r.is_hardware_backed = false ∧ r.attestation_chain = []) ∧
    (Stub.impl._platform_generate_auroprint p₁).1 =
      (Stub.impl._platform_generate_auroprint p₂).1 := by
  refine ⟨⟨_, Stub.generate_outcome _, rfl, rfl, rfl, by decide, rfl, rfl⟩, ?_⟩
  exact (Stub.generate_outcome p₁).trans (Stub.generate_outcome p₂).symm

/-- C3: on the stub, for every nonce and project number and from every
service state, the provider throws the "only supported on Android" error, and
`request_integrity_token` schedules exactly one deferred call, an
`integrity_token_error` carrying that message; the scheduled call is not an
`integrity_token_received`, so no token (not even an empty one) is
delivered. -/
theorem stub_integrity_token_unsupported (nonce : String) (cloud_project_number : Int)
    (s : Service) :
    Stub.impl._platform_request_integrity_token nonce cloud_project_number s.platform =
      (.error (.std_exception "Integrity tokens are only supported on Android"),
        s.platform) ∧
    request_integrity_token Stub.impl nonce cloud_project_number s =
      (.ok (), { platform := s.platform,
                 message_queue := s.message_queue ++
                   [emit_signal "integrity_token_error"
                     [.variant (.string
                       "Failed to request integrity token: Integrity tokens are only supported on Android")]] }) ∧
    scheduled s (request_integrity_token Stub.impl nonce cloud_project_number s).2 =
      [emit_signal "integrity_token_error"
        [.variant (.string
          "Failed to request integrity token: Integrity tokens are only supported on Android")]] ∧
    ∀ c ∈ scheduled s (request_integrity_token Stub.impl nonce cloud_project_number s).2,
      c.signal_name = some "integrity_token_error" ∧
      c.signal_name ≠ some "integrity_token_received" := by
  have hrun : request_integrity_token Stub.impl nonce cloud_project_number s =
      (.ok (), { platform := s.platform,
                 message_queue := s.message_queue ++
                   [emit_signal "integrity_token_error"
                     [.variant (.string
                       "Failed to request integrity token: Integrity tokens are only supported on Android")]] }) := by
    rfl
  have hsched : scheduled s (request_integrity_token Stub.impl nonce cloud_project_number s).2 =
      [emit_signal "integrity_token_error"
        [.variant (.string
          "Failed to request integrity token: Integrity tokens are only supported on Android")]] := by
    rw [hrun]
    simp [scheduled]
  refine ⟨rfl, hrun, hsched, ?_⟩
  intro c hc
  rw [hsched] at hc
  simp only [List.mem_singleton] at hc
  subst hc
  simp [DeferredCall.signal_name, emit_signal]

/-- C4: for every `AuroprintResult`, `to_dictionary` has exactly the eight
keys `device_id`, `payload`, `signature`, `public_key`, `attestation_chain`,
`timestamp`, `nonce`, `is_hardware_backed` (each once, no others), and the
value under each key is the field of that name, stored as a string, string,
string, string, array, integer, string and boolean. -/
theorem to_dictionary_eight_fields (r : AuroprintResult) :
    r.to_dictionary.keys =
      ["device_id", "payload", "signature", "public_key", "attestation_chain",
       "timestamp", "nonce", "is_hardware_backed"] ∧
    r.to_dictionary.get "device_id" = some (.string r.device_id) ∧
    r.to_dictionary.get "payload" = some (.string r.payload) ∧
    r.to_dictionary.get "signature" = some (.string r.signature) ∧
    r.to_dictionary.get "public_key" = some (.string r.public_key) ∧
    r.to_dictionary.get "attestation_chain" = some (.array r.attestation_chain) ∧
    r.to_dictionary.get "timestamp" = some (.int r.timestamp) ∧
    r.to_dictionary.get "nonce" = some (.string r.nonce) ∧
    r.to_dictionary.get "is_hardware_backed" = some (.bool r.is_hardware_backed) ∧
    (∀ key, key ∉ r.to_dictionary.keys → r.to_dictionary.get key = none) ∧
    (r.to_dictionary.map fun entry => (entry.1, entry.2.get_type)) =
      [("device_id", .STRING), ("payload", .STRING), ("signature", .STRING),
       ("public_key", .STRING), ("attestation_chain", .ARRAY), ("timestamp", .INT),
       ("nonce", .STRING), ("is_hardware_backed", .BOOL)] := by
  have hd : r.to_dictionary =
      [("device_id", .string r.device_id), ("payload", .string r.payload),
       ("signature", .string r.signature), ("public_key", .string r.public_key),
       ("attestation_chain", .array r.attestation_chain), ("timestamp", .int r.timestamp),
       ("nonce", .string r.nonce), ("is_hardware_backed", .bool r.is_hardware_backed)] := by
    simp [AuroprintResult.to_dictionary, Dictionary.set]
  rw [hd]
  refine ⟨rfl, ?_, ?_, ?_, ?_, ?_, ?_, ?_, ?_, ?_, rfl⟩
  any_goals (simp [Dictionary.get, List.lookup]; done)
  intro key hkey
  simp only [Dictionary.keys, List.map, List.mem_cons, List.mem_nil_iff, or_false,
    not_or, ← beq_eq_false_iff_ne] at hkey
  obtain ⟨h1, h2, h3, h4, h5, h6, h7, h8⟩ := hkey
  simp only [Dictionary.get, List.lookup, h1, h2, h3, h4, h5, h6, h7, h8]

/-- The deferred call an operation schedules, by the outcome of its provider:
the success signal with some payload, the failure signal with the message of
the `std::exception` behind the intro of the operation, or the failure signal
with the unknown-error message of the operation. -/
theorem scheduled_invoke (op : Operation) (impl : PlatformImpl) (nonce : String)
    (cloud_project_number : Int) (s : Service) :
    ∃ c, scheduled s (op.invoke impl nonce cloud_project_number s).2 = [c] ∧
      ((∃ payload, c = emit_signal op.success_signal payload) ∨
       (∃ what, c = emit_signal op.failure_signal
          [.variant (.string (op.error_intro ++ what))]) ∨
       c = emit_signal op.failure_signal [.variant (.string op.unknown_error)]) := by
  cases op
  · rcases h : impl._platform_generate_auroprint s.platform with ⟨_ | _, p⟩
    · rename_i e
      cases e <;>
        simp [Operation.invoke, generate_auroprint, _generate_auroprint_worker, h,
          Service.call_deferred, emit_signal, scheduled, Operation.success_signal,
          Operation.failure_signal, Operation.error_intro, Operation.unknown_error]
    · simp [Operation.invoke, generate_auroprint, _generate_auroprint_worker, h,
        Service.call_deferred, emit_signal, scheduled, Operation.success_signal]
  · rcases h : impl._platform_is_hardware_backed_available s.platform with ⟨_ | _, p⟩
    · rename_i e
      cases e <;>
        simp [Operation.invoke, is_hardware_backed_available,
          _is_hardware_backed_available_worker, h, Service.call_deferred, emit_signal,
          scheduled, Operation.success_signal, Operation.failure_signal,
          Operation.error_intro, Operation.unknown_error]
    · simp [Operation.invoke, is_hardware_backed_available,
        _is_hardware_backed_available_worker, h, Service.call_deferred, emit_signal,
        scheduled, Operation.success_signal]
  · rcases h : impl._platform_reset_key s.platform with ⟨_ | _, p⟩
    · rename_i e
      cases e <;>
        simp [Operation.invoke, reset_key, _reset_key_worker, h, Service.call_deferred,
          emit_signal, scheduled, Operation.success_signal, Operation.failure_signal,
          Operation.error_intro, Operation.unknown_error]
    · simp [Operation.invoke, reset_key, _reset_key_worker, h, Service.call_deferred,
        emit_signal, scheduled, Operation.success_signal]
  · rcases h : impl._platform_request_integrity_token nonce cloud_project_number s.platform
      with ⟨_ | _, p⟩
    · rename_i e
      cases e <;>
        simp [Operation.invoke, request_integrity_token, _request_integrity_token_worker, h,
          Service.call_deferred, emit_signal, scheduled, Operation.success_signal,
          Operation.failure_signal, Operation.error_intro, Operation.unknown_error]
    · simp [Operation.invoke, request_integrity_token, _request_integrity_token_worker, h,
        Service.call_deferred, emit_signal, scheduled, Operation.success_signal]

/-- Failure messages of two different operations never coincide, whatever
`what()` texts they carry. -/
theorem error_messages_disjoint (op₁ op₂ : Operation) (hne : op₁ ≠ op₂)
    (what₁ what₂ : String) :
    op₁.error_intro ++ what₁ ≠ op₂.error_intro ++ what₂ ∧
    op₁.error_intro ++ what₁ ≠ op₂.unknown_error ∧
    op₁.unknown_error ≠ op₂.error_intro ++ what₂ ∧
    op₁.unknown_error ≠ op₂.unknown_error := by
  cases op₁ <;> cases op₂ <;>
    first
    | exact absurd rfl hne
    | simp [String.ext_iff, Operation.error_intro, Operation.unknown_error]

/-- Success signals are pairwise different and differ from every failure
signal. -/
theorem signals_disjoint (op₁ op₂ : Operation) :
    (op₁ ≠ op₂ → op₁.success_signal ≠ op₂.success_signal) ∧
    op₁.success_signal ≠ op₂.failure_signal := by
  cases op₁ <;> cases op₂ <;> decide

/-- C5: two different operations never schedule the same notification: for
any providers, service states and arguments, whatever the outcomes of the two
provider calls and whatever messages the faults carry, a deferred call
scheduled by one operation differs (in signal name or in payload) from every
deferred call scheduled by the other; this holds in particular for the
failures of the three operations that share `auroprint_error`. -/
theorem operation_identity_preserved (op₁ op₂ : Operation) (hne : op₁ ≠ op₂)
    (impl₁ impl₂ : PlatformImpl) (s₁ s₂ : Service) (nonce₁ nonce₂ : String)
    (number₁ number₂ : Int) :
    ∀ c₁ ∈ scheduled s₁ (op₁.invoke impl₁ nonce₁ number₁ s₁).2,
    ∀ c₂ ∈ scheduled s₂ (op₂.invoke impl₂ nonce₂ number₂ s₂).2, c₁ ≠ c₂ := by
  obtain ⟨d₁, hd₁, hc₁⟩ := scheduled_invoke op₁ impl₁ nonce₁ number₁ s₁
  obtain ⟨d₂, hd₂, hc₂⟩ := scheduled_invoke op₂ impl₂ nonce₂ number₂ s₂
  intro c₁ h₁ c₂ h₂
  rw [hd₁, List.mem_singleton] at h₁
  rw [hd₂, List.mem_singleton] at h₂
  subst h₁ h₂
  have hs := signals_disjoint op₁ op₂
  have hs' := signals_disjoint op₂ op₁
  rcases hc₁ with ⟨q₁, rfl⟩ | ⟨w₁, rfl⟩ | rfl <;>
    rcases hc₂ with ⟨q₂, rfl⟩ | ⟨w₂, rfl⟩ | rfl <;>
    intro heq <;>
    simp only [emit_signal, DeferredCall.mk.injEq, List.cons.injEq, CallArg.variant.injEq,
      Variant.string.injEq, true_and, and_true] at heq
  · exact hs.1 hne heq.1
  · exact hs.2 heq.1
  · exact hs.2 heq.1
  · exact hs'.2 heq.1.symm
  · exact (error_messages_disjoint op₁ op₂ hne w₁ w₂).1 heq.2
  · exact (error_messages_disjoint op₁ op₂ hne w₁ "").2.1 heq.2
  · exact hs'.2 heq.1.symm
  · exact (error_messages_disjoint op₁ op₂ hne "" w₂).2.2.1 heq.2
  · exact (error_messages_disjoint op₁ op₂ hne "" "").2.2.2 heq.2

/-- C5 at an instance: `generate_auroprint` and `reset_key`, both failing with
the same `what()` text on the shared channel, schedule different calls. -/
theorem operation_identity_preserved_witness :
    Operation.generate_auroprint ≠ Operation.reset_key ∧
    ∀ c₁ ∈ scheduled Service.fresh
        (Operation.generate_auroprint.invoke
          { Stub.impl with
            _platform_generate_auroprint := fun p => (.error (.std_exception "boom"), p) }
          "" 0 Service.fresh).2,
      ∀ c₂ ∈ scheduled Service.fresh
        (Operation.reset_key.invoke
          { Stub.impl with
            _platform_reset_key := fun p => (.error (.std_exception "boom"), p) }
          "" 0 Service.fresh).2,
      c₁ ≠ c₂ :=
  ⟨by decide, operation_identity_preserved _ _ (by decide) _ _ _ _ _ _ _ _⟩

/-! ## Properties of the Android provider -/

namespace Android

/-- What `get_jni_env` returns does not depend on the platform state, and its
calls are appended to the ones made before. -/
theorem get_jni_env_frame (g_jvm : Option JavaVM) (p : Platform) :
    (get_jni_env g_jvm p).1 = (get_jni_env g_jvm Platform.fresh).1 ∧
    (get_jni_env g_jvm p).2.jni = p.jni ++ (get_jni_env g_jvm Platform.fresh).2.jni ∧
    (get_jni_env g_jvm p).2.warnings = p.warnings := by
  unfold get_jni_env
  cases g_jvm with
  | none => simp [Platform.LOGE, Platform.fresh]
  | some vm =>
    simp only []
    split_ifs <;> simp [Platform.LOGE, Platform.LOGD, Platform.call, Platform.lookup, Platform.invoke, Platform.ExceptionClear, Platform.fresh]

/-- What `get_activity` returns does not depend on the platform state, and its
calls are appended to the ones made before. -/
theorem get_activity_frame (g_jvm : Option JavaVM) (p : Platform) :
    (get_activity g_jvm p).1 = (get_activity g_jvm Platform.fresh).1 ∧
    (get_activity g_jvm p).2.jni = p.jni ++ (get_activity g_jvm Platform.fresh).2.jni ∧
    (get_activity g_jvm p).2.warnings = p.warnings := by
  obtain ⟨h1, h2, h3⟩ := get_jni_env_frame g_jvm p
  have h4 := (get_jni_env_frame g_jvm Platform.fresh).2.2
  unfold get_activity
  rcases hp : get_jni_env g_jvm p with ⟨v, q⟩
  rcases hf : get_jni_env g_jvm Platform.fresh with ⟨v₀, q₀⟩
  rw [hp, hf] at h1 h2
  rw [hp] at h3
  rw [hf] at h4
  simp only at h1 h2 h3 h4
  subst h1
  cases v with
  | none => simp [Platform.LOGE, h2, h3, h4, Platform.fresh]
  | some env =>
    simp only []
    split_ifs <;>
      simp [Platform.LOGE, Platform.call, Platform.lookup, Platform.invoke, Platform.ExceptionClear, h2, h3, h4, Platform.fresh, List.append_assoc]

/-- What `get_kotlin_plugin_instance` returns does not depend on the platform
state, and its calls are appended to the ones made before. -/
theorem get_kotlin_plugin_instance_frame (g_jvm : Option JavaVM) (env : JNIEnv)
    (p : Platform) :
    (get_kotlin_plugin_instance g_jvm env p).1 =
      (get_kotlin_plugin_instance g_jvm env Platform.fresh).1 ∧
    (get_kotlin_plugin_instance g_jvm env p).2.jni =
      p.jni ++ (get_kotlin_plugin_instance g_jvm env Platform.fresh).2.jni ∧
    (get_kotlin_plugin_instance g_jvm env p).2.warnings = p.warnings := by
  unfold get_kotlin_plugin_instance
  simp only []
  by_cases hc : env.FindClass AuroprintPluginSync = true
  · obtain ⟨h1, h2, h3⟩ :=
      get_activity_frame g_jvm (p.lookup (.FindClass AuroprintPluginSync) (env.FindClass AuroprintPluginSync))
    obtain ⟨k1, k2, k3⟩ :=
      get_activity_frame g_jvm (Platform.fresh.lookup (.FindClass AuroprintPluginSync) (env.FindClass AuroprintPluginSync))
    rcases hp : get_activity g_jvm (p.lookup (.FindClass AuroprintPluginSync) (env.FindClass AuroprintPluginSync)) with ⟨v, q⟩
    rcases hf : get_activity g_jvm (Platform.fresh.lookup (.FindClass AuroprintPluginSync) (env.FindClass AuroprintPluginSync))
      with ⟨v₀, q₀⟩
    rw [hp] at h1 h2 h3
    rw [hf] at k1 k2 k3
    simp only at h1 h2 h3 k1 k2 k3
    have hv : v = v₀ := h1.trans k1.symm
    subst hv
    cases v <;> simp only [hc, Bool.not_true, Bool.false_eq_true, if_false]
    · simp [Platform.LOGE, Platform.call, Platform.lookup, Platform.invoke, Platform.ExceptionClear, Platform.fresh, h2, h3, k2, k3] at *
    · split_ifs <;>
        simp [Platform.LOGE, Platform.call, Platform.lookup, Platform.invoke, Platform.ExceptionClear, Platform.fresh, h2, h3, k2, k3] at *
  · simp [hc, Platform.LOGE, Platform.call, Platform.lookup, Platform.invoke, Platform.ExceptionClear, Platform.fresh]

/-- The calls `get_jni_env` makes: none, `GetEnv`, or `GetEnv` followed by one
`AttachCurrentThread`. -/
theorem get_jni_env_calls (g_jvm : Option JavaVM) :
    (get_jni_env g_jvm Platform.fresh).2.jni = [] ∨
    (get_jni_env g_jvm Platform.fresh).2.jni = [.GetEnv] ∨
    (get_jni_env g_jvm Platform.fresh).2.jni = [.GetEnv, .AttachCurrentThread] := by
  unfold get_jni_env
  cases g_jvm with
  | none => simp [Platform.LOGE, Platform.fresh]
  | some vm =>
    simp only []
    split_ifs <;> simp [Platform.LOGE, Platform.LOGD, Platform.call, Platform.lookup, Platform.invoke, Platform.ExceptionClear, Platform.fresh]

/-- The calls `get_activity` makes never invoke an operation of the companion
object, never look up its class and never construct it. -/
theorem get_activity_calls (g_jvm : Option JavaVM) :
    ∀ c ∈ (get_activity g_jvm Platform.fresh).2.jni,
      (∀ op : Operation, c ≠ op.foreign_call) ∧
      c ≠ .FindClass AuroprintPluginSync ∧ c ≠ .NewObject AuroprintPluginSync := by
  have he := get_jni_env_calls g_jvm
  unfold get_activity
  rcases hf : get_jni_env g_jvm Platform.fresh with ⟨v, q⟩
  rw [hf] at he
  simp only at he
  have hop : ∀ c : JniCall,
      (c = .GetEnv ∨ c = .AttachCurrentThread ∨ c = .FindClass AuroprintGodotPlugin ∨
        c = .GetStaticMethodID AuroprintGodotPlugin "getInstance"
          "()Lcom/madeofcode/auroprint/AuroprintGodotPlugin;" ∨
        c = .CallStaticObjectMethod "getInstance" ∨
        c = .GetMethodID AuroprintGodotPlugin "getAndroidActivity" "()Landroid/app/Activity;" ∨
        c = .CallObjectMethod "getAndroidActivity") →
      (∀ op : Operation, c ≠ op.foreign_call) ∧
      c ≠ .FindClass AuroprintPluginSync ∧ c ≠ .NewObject AuroprintPluginSync := by
    intro c hc
    rcases hc with rfl | rfl | rfl | rfl | rfl | rfl | rfl <;>
      refine ⟨fun op => ?_, ?_, ?_⟩ <;> first | (cases op <;> decide) | decide
  intro c hc
  apply hop
  cases v with
  | none =>
    rcases he with he | he | he <;> simp [Platform.LOGE, he] at hc <;> tauto
  | some env =>
    simp only [] at hc
    split_ifs at hc <;>
      rcases he with he | he | he <;>
      simp [Platform.LOGE, Platform.call, Platform.lookup, Platform.invoke, Platform.ExceptionClear, he] at hc <;> tauto

/-- The calls `get_kotlin_plugin_instance` makes never invoke an operation of
the companion object; they look up its class once and construct it at most
once. -/
theorem get_kotlin_plugin_instance_calls (g_jvm : Option JavaVM) (env : JNIEnv) :
    (∀ op : Operation,
      op.foreign_call ∉ (get_kotlin_plugin_instance g_jvm env Platform.fresh).2.jni) ∧
    (get_kotlin_plugin_instance g_jvm env Platform.fresh).2.jni.count
      (.FindClass AuroprintPluginSync) = 1 ∧
    (get_kotlin_plugin_instance g_jvm env Platform.fresh).2.jni.count
      (.NewObject AuroprintPluginSync) ≤ 1 := by
  have ha := get_activity_calls g_jvm
  have hmem : ∀ op : Operation, op.foreign_call ∉ (get_activity g_jvm Platform.fresh).2.jni :=
    fun op hin => (ha _ hin).1 op rfl
  have hc1 : (get_activity g_jvm Platform.fresh).2.jni.count
      (.FindClass AuroprintPluginSync) = 0 :=
    List.count_eq_zero_of_not_mem fun hin => (ha _ hin).2.1 rfl
  have hc2 : (get_activity g_jvm Platform.fresh).2.jni.count
      (.NewObject AuroprintPluginSync) = 0 :=
    List.count_eq_zero_of_not_mem fun hin => (ha _ hin).2.2 rfl
  have hop : ∀ op : Operation,
      op.foreign_call ≠ .FindClass AuroprintPluginSync ∧
      op.foreign_call ≠ .NewObject AuroprintPluginSync ∧
      op.foreign_call ≠ .GetMethodID AuroprintPluginSync "<init>"
        "(Landroid/content/Context;)V" := by
    intro op
    cases op <;> decide
  unfold get_kotlin_plugin_instance
  simp only []
  by_cases hc : env.FindClass AuroprintPluginSync = true
  · obtain ⟨-, k2, -⟩ :=
      get_activity_frame g_jvm (Platform.fresh.lookup (.FindClass AuroprintPluginSync) (env.FindClass AuroprintPluginSync))
    rcases hf : get_activity g_jvm (Platform.fresh.lookup (.FindClass AuroprintPluginSync) (env.FindClass AuroprintPluginSync))
      with ⟨v, q⟩
    rw [hf] at k2
    replace k2 : q.jni = .FindClass AuroprintPluginSync ::
        (get_activity g_jvm Platform.fresh).2.jni := k2
    cases v <;> simp only [hc, Bool.not_true, Bool.false_eq_true, if_false]
    · refine ⟨fun op => ?_, ?_, ?_⟩
      · have := hmem op
        have := hop op
        simp [Platform.LOGE, Platform.call, Platform.lookup, Platform.invoke, Platform.ExceptionClear, k2]
        tauto
      · simp [Platform.LOGE, Platform.call, Platform.lookup, Platform.invoke, Platform.ExceptionClear, k2, hc1]
      · simp [Platform.LOGE, Platform.call, Platform.lookup, Platform.invoke, Platform.ExceptionClear, k2, hc2]
    · split_ifs
      · refine ⟨fun op => ?_, ?_, ?_⟩
        · have := hmem op
          have := hop op
          simp [Platform.LOGE, Platform.call, Platform.lookup, Platform.invoke, Platform.ExceptionClear, k2]
          tauto
        · simp [Platform.LOGE, Platform.call, Platform.lookup, Platform.invoke, Platform.ExceptionClear, k2, hc1, List.count_cons]
        · simp [Platform.LOGE, Platform.call, Platform.lookup, Platform.invoke, Platform.ExceptionClear, k2, hc2, List.count_cons]
      · refine ⟨fun op => ?_, ?_, ?_⟩
        · have := hmem op
          have := hop op
          simp [Platform.LOGE, Platform.call, Platform.lookup, Platform.invoke, Platform.ExceptionClear, k2]
          tauto
        · simp [Platform.LOGE, Platform.call, Platform.lookup, Platform.invoke, Platform.ExceptionClear, k2, hc1, List.count_cons]
        · simp [Platform.LOGE, Platform.call, Platform.lookup, Platform.invoke, Platform.ExceptionClear, k2, hc2, List.count_cons]
  · refine ⟨fun op => ?_, ?_, ?_⟩
    · have := hop op
      simp [hc, Platform.LOGE, Platform.call, Platform.lookup, Platform.invoke, Platform.ExceptionClear, Platform.fresh]
      tauto
    · simp [hc, Platform.LOGE, Platform.call, Platform.lookup, Platform.invoke, Platform.ExceptionClear, Platform.fresh]
    · simp [hc, Platform.LOGE, Platform.call, Platform.lookup, Platform.invoke, Platform.ExceptionClear, Platform.fresh]

/-- When `get_jni_env` yields no environment, every operation ends with its
failure signal and has made no call beyond those of `get_jni_env`. -/
theorem invoke_without_env (g_jvm : Option JavaVM) (op : Operation) (nonce : String)
    (cloud_project_number : Int) (s : Service)
    (henv : (get_jni_env g_jvm s.platform).1 = none) :
    op.invoke (impl g_jvm) nonce cloud_project_number s =
      (.ok (), { platform := (get_jni_env g_jvm s.platform).2,
                 message_queue := s.message_queue ++
                   [emit_signal op.failure_signal
                     [.variant (.string (op.error_intro ++ "Failed to get JNI environment"))]] }) := by
  rcases hp : get_jni_env g_jvm s.platform with ⟨v, q⟩
  rw [hp] at henv
  simp only at henv
  subst henv
  cases op <;>
    simp [Operation.invoke, Auroprint.generate_auroprint, _generate_auroprint_worker,
      Auroprint.is_hardware_backed_available, _is_hardware_backed_available_worker,
      Auroprint.reset_key, _reset_key_worker, Auroprint.request_integrity_token,
      _request_integrity_token_worker, impl, _platform_generate_auroprint,
      _platform_is_hardware_backed_available, _platform_reset_key,
      _platform_request_integrity_token, hp, Service.call_deferred, emit_signal,
      Operation.failure_signal, Operation.error_intro]

/-- When `get_jni_env` yields an environment but `get_kotlin_plugin_instance`
yields no companion object, every operation ends with its failure signal and
has made no call beyond those of the two helpers. -/
theorem invoke_without_plugin (g_jvm : Option JavaVM) (env : JNIEnv) (op : Operation)
    (nonce : String) (cloud_project_number : Int) (s : Service)
    (henv : (get_jni_env g_jvm s.platform).1 = some env)
    (hplugin : (get_kotlin_plugin_instance g_jvm env s.platform).1 = false) :
    (op.invoke (impl g_jvm) nonce cloud_project_number s).1 = .ok () ∧
    (op.invoke (impl g_jvm) nonce cloud_project_number s).2.message_queue =
      s.message_queue ++
        [emit_signal op.failure_signal
          [.variant (.string (op.error_intro ++ "Failed to create Kotlin plugin instance"))]] ∧
    (op.invoke (impl g_jvm) nonce cloud_project_number s).2.platform.jni =
      s.platform.jni ++ ((get_jni_env g_jvm Platform.fresh).2.jni ++
        (get_kotlin_plugin_instance g_jvm env Platform.fresh).2.jni) := by
  obtain ⟨-, e2, -⟩ := get_jni_env_frame g_jvm s.platform
  rcases hp : get_jni_env g_jvm s.platform with ⟨v, q⟩
  rw [hp] at henv e2
  simp only at henv e2
  subst henv
  have hval : ∀ p, (get_kotlin_plugin_instance g_jvm env p).1 = false := fun p =>
    ((get_kotlin_plugin_instance_frame g_jvm env p).1.trans
      (get_kotlin_plugin_instance_frame g_jvm env s.platform).1.symm).trans hplugin
  cases op
  · obtain ⟨-, k2, -⟩ :=
      get_kotlin_plugin_instance_frame g_jvm env (q.LOGD "Generating auroprint via JNI...")
    have hv := hval (q.LOGD "Generating auroprint via JNI...")
    rcases hk : get_kotlin_plugin_instance g_jvm env (q.LOGD "Generating auroprint via JNI...")
      with ⟨b, q'⟩
    rw [hk] at k2 hv
    replace k2 : q'.jni = q.jni ++ (get_kotlin_plugin_instance g_jvm env Platform.fresh).2.jni :=
      k2
    simp only at hv
    subst hv
    simp [Operation.invoke, Auroprint.generate_auroprint, _generate_auroprint_worker, impl,
      _platform_generate_auroprint, hp, hk, Service.call_deferred, emit_signal,
      Operation.failure_signal, Operation.error_intro, k2, e2]
  · obtain ⟨-, k2, -⟩ := get_kotlin_plugin_instance_frame g_jvm env q
    have hv := hval q
    rcases hk : get_kotlin_plugin_instance g_jvm env q with ⟨b, q'⟩
    rw [hk] at k2 hv
    simp only at k2 hv
    subst hv
    simp [Operation.invoke, Auroprint.is_hardware_backed_available,
      _is_hardware_backed_available_worker, impl, _platform_is_hardware_backed_available, hp,
      hk, Service.call_deferred, emit_signal, Operation.failure_signal,
      Operation.error_intro, k2, e2]
  · obtain ⟨-, k2, -⟩ := get_kotlin_plugin_instance_frame g_jvm env q
    have hv := hval q
    rcases hk : get_kotlin_plugin_instance g_jvm env q with ⟨b, q'⟩
    rw [hk] at k2 hv
    simp only at k2 hv
    subst hv
    simp [Operation.invoke, Auroprint.reset_key, _reset_key_worker, impl,
      _platform_reset_key, hp, hk, Service.call_deferred, emit_signal,
      Operation.failure_signal, Operation.error_intro, k2, e2]
  · obtain ⟨-, k2, -⟩ := get_kotlin_plugin_instance_frame g_jvm env q
    have hv := hval q
    rcases hk : get_kotlin_plugin_instance g_jvm env q with ⟨b, q'⟩
    rw [hk] at k2 hv
    simp only at k2 hv
    subst hv
    simp [Operation.invoke, Auroprint.request_integrity_token,
      _request_integrity_token_worker, impl, _platform_request_integrity_token, hp, hk,
      Service.call_deferred, emit_signal, Operation.failure_signal, Operation.error_intro,
      k2, e2]

/-- When `get_jni_env` or `get_kotlin_plugin_instance` hands back null, each
of the four operations lets no fault escape and schedules exactly one
deferred call, its failure signal carrying the message of the failed step;
the run invokes no operation of the companion object, looks up the companion
class and constructs it at most once, and when no environment is obtained it
makes at most one `GetEnv` and one `AttachCurrentThread` and nothing else. -/
theorem null_handle_is_surfaced (g_jvm : Option JavaVM) (op : Operation)
    (nonce : String) (cloud_project_number : Int) (s : Service)
    (h : (get_jni_env g_jvm s.platform).1 = none ∨
      ∃ env, (get_jni_env g_jvm s.platform).1 = some env ∧
        (get_kotlin_plugin_instance g_jvm env s.platform).1 = false) :
    (op.invoke (impl g_jvm) nonce cloud_project_number s).1 = .ok () ∧
    (∃ what, (what = "Failed to get JNI environment" ∨
        what = "Failed to create Kotlin plugin instance") ∧
      scheduled s (op.invoke (impl g_jvm) nonce cloud_project_number s).2 =
        [emit_signal op.failure_signal [.variant (.string (op.error_intro ++ what))]]) ∧
    (∀ c ∈ scheduled s (op.invoke (impl g_jvm) nonce cloud_project_number s).2,
      c.signal_name = some op.failure_signal) ∧
    (∀ op' : Operation,
      op'.foreign_call ∉ new_calls s (op.invoke (impl g_jvm) nonce cloud_project_number s).2) ∧
    (new_calls s (op.invoke (impl g_jvm) nonce cloud_project_number s).2).count
      (.FindClass AuroprintPluginSync) ≤ 1 ∧
    (new_calls s (op.invoke (impl g_jvm) nonce cloud_project_number s).2).count
      (.NewObject AuroprintPluginSync) ≤ 1 ∧
    ((get_jni_env g_jvm s.platform).1 = none →
      new_calls s (op.invoke (impl g_jvm) nonce cloud_project_number s).2 = [] ∨
      new_calls s (op.invoke (impl g_jvm) nonce cloud_project_number s).2 = [.GetEnv] ∨
      new_calls s (op.invoke (impl g_jvm) nonce cloud_project_number s).2 =
        [.GetEnv, .AttachCurrentThread]) := by
  have hsig : ∀ msg : String, (emit_signal op.failure_signal
      [.variant (.string msg)]).signal_name = some op.failure_signal := by
    intro msg
    simp [DeferredCall.signal_name, emit_signal]
  have hopcalls : ∀ op' : Operation,
      op'.foreign_call ≠ .GetEnv ∧ op'.foreign_call ≠ .AttachCurrentThread := by
    intro op'
    cases op' <;> decide
  have hTe := get_jni_env_calls g_jvm
  have hTe_mem : ∀ op' : Operation,
      op'.foreign_call ∉ (get_jni_env g_jvm Platform.fresh).2.jni := by
    intro op'
    have := hopcalls op'
    rcases hTe with e | e | e <;> rw [e] <;> simp <;> tauto
  have hTe_c1 : (get_jni_env g_jvm Platform.fresh).2.jni.count
      (.FindClass AuroprintPluginSync) = 0 := by
    rcases hTe with e | e | e <;> rw [e] <;> decide
  have hTe_c2 : (get_jni_env g_jvm Platform.fresh).2.jni.count
      (.NewObject AuroprintPluginSync) = 0 := by
    rcases hTe with e | e | e <;> rw [e] <;> decide
  rcases h with henv | ⟨env, henv, hplugin⟩
  · have hrun := invoke_without_env g_jvm op nonce cloud_project_number s henv
    have hnew : new_calls s (op.invoke (impl g_jvm) nonce cloud_project_number s).2 =
        (get_jni_env g_jvm Platform.fresh).2.jni := by
      rw [hrun]
      simp [new_calls, (get_jni_env_frame g_jvm s.platform).2.1]
    have hsched : scheduled s (op.invoke (impl g_jvm) nonce cloud_project_number s).2 =
        [emit_signal op.failure_signal
          [.variant (.string (op.error_intro ++ "Failed to get JNI environment"))]] := by
      rw [hrun]
      simp [scheduled]
    refine ⟨by rw [hrun], ⟨_, Or.inl rfl, hsched⟩, ?_, ?_, ?_, ?_, ?_⟩
    · intro c hc
      rw [hsched, List.mem_singleton] at hc
      rw [hc]
      exact hsig _
    · intro op'
      rw [hnew]
      exact hTe_mem op'
    · rw [hnew, hTe_c1]
      exact Nat.zero_le _
    · rw [hnew, hTe_c2]
      exact Nat.zero_le _
    · intro _
      rw [hnew]
      exact hTe
  · obtain ⟨r1, r2, r3⟩ :=
      invoke_without_plugin g_jvm env op nonce cloud_project_number s henv hplugin
    obtain ⟨k1, k2, k3⟩ := get_kotlin_plugin_instance_calls g_jvm env
    have hnew : new_calls s (op.invoke (impl g_jvm) nonce cloud_project_number s).2 =
        (get_jni_env g_jvm Platform.fresh).2.jni ++
          (get_kotlin_plugin_instance g_jvm env Platform.fresh).2.jni := by
      simp [new_calls, r3]
    have hsched : scheduled s (op.invoke (impl g_jvm) nonce cloud_project_number s).2 =
        [emit_signal op.failure_signal
          [.variant (.string (op.error_intro ++ "Failed to create Kotlin plugin instance"))]] := by
      simp [scheduled, r2]
    refine ⟨r1, ⟨_, Or.inr rfl, hsched⟩, ?_, ?_, ?_, ?_, ?_⟩
    · intro c hc
      rw [hsched, List.mem_singleton] at hc
      rw [hc]
      exact hsig _
    · intro op'
      rw [hnew, List.mem_append, not_or]
      exact ⟨hTe_mem op', k1 op'⟩
    · rw [hnew, List.count_append, hTe_c1, k2]
    · rw [hnew, List.count_append, hTe_c2, Nat.zero_add]
      exact k3
    · intro hnone
      rw [henv] at hnone
      exact absurd hnone (by simp)

/-- C7 refuted at an instance: the foreign generator returns, without raising,
a map from which the key `deviceId` is absent; `generate_auroprint` schedules
`auroprint_generated` with a result whose device id is the default empty
string, and schedules no `auroprint_error`. -/
theorem malformed_map_is_not_reported :
    Mock.map_without_device_id.get "deviceId" = none ∧
    scheduled Service.fresh
        (generate_auroprint (impl (Mock.jvm Mock.env_missing_key)) Service.fresh).2 =
      [emit_signal "auroprint_generated"
        [.object { device_id := ""
                   payload := "signed-payload"
                   signature := "sig"
                   public_key := "pub"
                   attestation_chain := [.string "leaf", .string "root"]
                   timestamp := 1700000000000
                   nonce := "n-1"
                   is_hardware_backed := true }]] ∧
    ¬ ∃ c ∈ scheduled Service.fresh
        (generate_auroprint (impl (Mock.jvm Mock.env_missing_key)) Service.fresh).2,
      c.signal_name = some "auroprint_error" := by
  have hs : scheduled Service.fresh
        (generate_auroprint (impl (Mock.jvm Mock.env_missing_key)) Service.fresh).2 =
      [emit_signal "auroprint_generated"
        [.object { device_id := ""
                   payload := "signed-payload"
                   signature := "sig"
                   public_key := "pub"
                   attestation_chain := [.string "leaf", .string "root"]
                   timestamp := 1700000000000
                   nonce := "n-1"
                   is_hardware_backed := true }]] := by
    rfl
  refine ⟨rfl, hs, ?_⟩
  rw [hs]
  simp [DeferredCall.signal_name, emit_signal]

/-- C8 at the failing input: in a runtime where every operation of the
companion object raises a Java exception, `is_hardware_backed_available`
never calls `ExceptionCheck` and schedules `hardware_backed_result` with the
boolean handed back by the call, not a failure signal; on the same runtime
the sibling operations `generate_auroprint`, `reset_key` and
`request_integrity_token` check for the exception and schedule their failure
signal. -/
theorem hardware_check_ignores_foreign_exception :
    Mock.env_raising.isHardwareBackedAvailableSync.exception_pending = true ∧
    scheduled Service.fresh
        (is_hardware_backed_available (impl (Mock.jvm Mock.env_raising)) Service.fresh).2 =
      [emit_signal "hardware_backed_result" [.variant (.bool false)]] ∧
    JniCall.ExceptionCheck ∉ new_calls Service.fresh
        (is_hardware_backed_available (impl (Mock.jvm Mock.env_raising)) Service.fresh).2 ∧
    scheduled Service.fresh
        (generate_auroprint (impl (Mock.jvm Mock.env_raising)) Service.fresh).2 =
      [emit_signal "auroprint_error"
        [.variant (.string
          "Failed to generate auroprint: Exception occurred while generating auroprint")]] ∧
    scheduled Service.fresh
        (reset_key (impl (Mock.jvm Mock.env_raising)) Service.fresh).2 =
      [emit_signal "auroprint_error"
        [.variant (.string "Failed to reset key: Exception occurred while resetting key")]] ∧
    scheduled Service.fresh
        (request_integrity_token (impl (Mock.jvm Mock.env_raising)) "abc123" 42
          Service.fresh).2 =
      [emit_signal "integrity_token_error"
        [.variant (.string
          "Failed to request integrity token: Exception occurred while requesting integrity token")]] := by
  refine ⟨rfl, rfl, ?_, rfl, rfl, rfl⟩
  decide

/-- C10 refuted at an instance: on Android with the JavaVM pointer never
initialised, the provider operation does not return `false`, it throws
`std::runtime_error("Failed to get JNI environment")`. -/
theorem android_hardware_check_throws :
    (_platform_is_hardware_backed_available none Platform.fresh).1 =
      .error (.std_exception "Failed to get JNI environment") ∧
    (_platform_is_hardware_backed_available none Platform.fresh).1 ≠ .ok false := by
  refine ⟨rfl, ?_⟩
  intro h
  exact absurd h (by simp [_platform_is_hardware_backed_available, get_jni_env])

/-- C10 as amended: the stub operation never throws and returns `false` in
every platform state. The Android operation throws a `std::runtime_error`
when `get_jni_env` yields no environment, when `get_kotlin_plugin_instance`
yields no companion object, and when the method
`isHardwareBackedAvailableSync` is not found; when all three are obtained and
the foreign call leaves no pending Java exception, it returns the boolean of
the foreign call without throwing. -/
theorem hardware_check_outcomes :
    (∀ p : Platform, Stub._platform_is_hardware_backed_available p = (.ok false, p)) ∧
    (∀ (g_jvm : Option JavaVM) (p : Platform), (get_jni_env g_jvm p).1 = none →
      (_platform_is_hardware_backed_available g_jvm p).1 =
        .error (.std_exception "Failed to get JNI environment")) ∧
    (∀ (g_jvm : Option JavaVM) (env : JNIEnv) (p : Platform),
      (get_jni_env g_jvm p).1 = some env →
      (get_kotlin_plugin_instance g_jvm env p).1 = false →
      (_platform_is_hardware_backed_available g_jvm p).1 =
        .error (.std_exception "Failed to create Kotlin plugin instance")) ∧
    (∀ (g_jvm : Option JavaVM) (env : JNIEnv) (p : Platform),
      (get_jni_env g_jvm p).1 = some env →
      (get_kotlin_plugin_instance g_jvm env p).1 = true →
      env.GetMethodID AuroprintPluginSync "isHardwareBackedAvailableSync" "()Z" = false →
      (_platform_is_hardware_backed_available g_jvm p).1 =
        .error (.std_exception "isHardwareBackedAvailableSync method not found")) ∧
    (∀ (g_jvm : Option JavaVM) (env : JNIEnv) (p : Platform),
      (get_jni_env g_jvm p).1 = some env →
      (get_kotlin_plugin_instance g_jvm env p).1 = true →
      env.GetMethodID AuroprintPluginSync "isHardwareBackedAvailableSync" "()Z" = true →
      env.isHardwareBackedAvailableSync.exception_pending = false →
      (_platform_is_hardware_backed_available g_jvm p).1 =
        .ok env.isHardwareBackedAvailableSync.value) := by
  have key : ∀ (g_jvm : Option JavaVM) (env : JNIEnv) (p : Platform) (b : Bool),
      (get_jni_env g_jvm p).1 = some env →
      (get_kotlin_plugin_instance g_jvm env p).1 = b →
      ∃ q q', get_jni_env g_jvm p = (some env, q) ∧
        get_kotlin_plugin_instance g_jvm env q = (b, q') := by
    intro g_jvm env p b henv hplugin
    rcases hp : get_jni_env g_jvm p with ⟨v, q⟩
    rw [hp] at henv
    simp only at henv
    subst henv
    have hv : (get_kotlin_plugin_instance g_jvm env q).1 = b :=
      ((get_kotlin_plugin_instance_frame g_jvm env q).1.trans
        (get_kotlin_plugin_instance_frame g_jvm env p).1.symm).trans hplugin
    rcases hk : get_kotlin_plugin_instance g_jvm env q with ⟨b', q'⟩
    rw [hk] at hv
    simp only at hv
    subst hv
    exact ⟨q, q', rfl, hk⟩
  refine ⟨fun p => rfl, ?_, ?_, ?_, ?_⟩
  · intro g_jvm p henv
    rcases hp : get_jni_env g_jvm p with ⟨v, q⟩
    rw [hp] at henv
    simp only at henv
    subst henv
    simp [_platform_is_hardware_backed_available, hp]
  · intro g_jvm env p henv hplugin
    obtain ⟨q, q', hp, hk⟩ := key g_jvm env p false henv hplugin
    simp [_platform_is_hardware_backed_available, hp, hk]
  · intro g_jvm env p henv hplugin hmethod
    obtain ⟨q, q', hp, hk⟩ := key g_jvm env p true henv hplugin
    simp [_platform_is_hardware_backed_available, hp, hk, hmethod]
  · intro g_jvm env p henv hplugin hmethod _
    obtain ⟨q, q', hp, hk⟩ := key g_jvm env p true henv hplugin
    simp [_platform_is_hardware_backed_available, hp, hk, hmethod]

/-- C10 as amended, at instances: with the JavaVM pointer never initialised
the Android operation throws; in a runtime where everything is found and the
call completes it returns the foreign boolean. -/
theorem hardware_check_outcomes_witness :
    (get_jni_env none Platform.fresh).1 = none ∧
    (_platform_is_hardware_backed_available none Platform.fresh).1 =
      .error (.std_exception "Failed to get JNI environment") ∧
    (_platform_is_hardware_backed_available (Mock.jvm Mock.env_missing_key)
      Platform.fresh).1 = .ok true :=
  ⟨rfl, hardware_check_outcomes.2.1 none Platform.fresh rfl,
   hardware_check_outcomes.2.2.2.2 (Mock.jvm Mock.env_missing_key) Mock.env_missing_key
     Platform.fresh rfl rfl rfl rfl⟩

end Android

/-! ## Further properties of the stub provider and of the result record -/

/-- C11: on the stub, from every service state, `_platform_reset_key` throws
nothing and does nothing but push one warning (it makes no foreign call and
writes no log line), and `reset_key` lets no fault escape and schedules
exactly one deferred call, `key_reset_complete` without payload, and no
failure signal. -/
theorem stub_reset_key_succeeds (s : Service) :
    Stub.impl._platform_reset_key s.platform =
      (.ok (), s.platform.push_warning
        "Auroprint: reset_key() is not supported on desktop platforms") ∧
    (reset_key Stub.impl s).1 = .ok () ∧
    scheduled s (reset_key Stub.impl s).2 = [emit_signal "key_reset_complete" []] ∧
    (∀ c ∈ scheduled s (reset_key Stub.impl s).2,
      c.signal_name = some "key_reset_complete" ∧ c.signal_name ≠ some "auroprint_error") ∧
    (reset_key Stub.impl s).2.platform.warnings =
      s.platform.warnings ++ ["Auroprint: reset_key() is not supported on desktop platforms"] ∧
    (reset_key Stub.impl s).2.platform.jni = s.platform.jni ∧
    (reset_key Stub.impl s).2.platform.logcat = s.platform.logcat := by
  have hs : scheduled s (reset_key Stub.impl s).2 = [emit_signal "key_reset_complete" []] := by
    simp [scheduled, reset_key, _reset_key_worker, Stub.impl, Stub._platform_reset_key,
      Service.call_deferred, emit_signal]
  refine ⟨rfl, rfl, hs, ?_, rfl, rfl, rfl⟩
  intro c hc
  rw [hs, List.mem_singleton] at hc
  subst hc
  simp [DeferredCall.signal_name, emit_signal]

/-- C12: the constructor of `AuroprintResult` is a total value whose fields,
read directly or through the getters, are the documented defaults: the five
strings are empty, the attestation chain is the empty array, the timestamp is
0 and the hardware flag is false; this record is also what the Android
conversion yields when the provider hands back no object. -/
theorem default_constructed_result :
    AuroprintResult.new.device_id = "" ∧
    AuroprintResult.new.payload = "" ∧
    AuroprintResult.new.signature = "" ∧
    AuroprintResult.new.public_key = "" ∧
    AuroprintResult.new.attestation_chain = [] ∧
    AuroprintResult.new.timestamp = 0 ∧
    AuroprintResult.new.nonce = "" ∧
    AuroprintResult.new.is_hardware_backed = false ∧
    AuroprintResult.new.get_device_id = "" ∧
    AuroprintResult.new.get_payload = "" ∧
    AuroprintResult.new.get_signature = "" ∧
    AuroprintResult.new.get_public_key = "" ∧
    AuroprintResult.new.get_attestation_chain = [] ∧
    AuroprintResult.new.get_timestamp = 0 ∧
    AuroprintResult.new.get_nonce = "" ∧
    AuroprintResult.new.get_is_hardware_backed = false ∧
    ∀ p : Platform, (Android.jobject_to_auroprint_result none p).1 = AuroprintResult.new := by
  refine ⟨rfl, rfl, rfl, rfl, rfl, rfl, rfl, rfl, rfl, rfl, rfl, rfl, rfl, rfl, rfl, rfl, ?_⟩
  intro p
  rfl

/-- C13 refuted at an instance: the result the stub provider hands over can be
changed by the caller through the bound setter `set_device_id`; after the
call its device id is "tampered" and the record differs from the one
delivered. -/
theorem delivered_result_is_mutable :
    ∃ r : AuroprintResult,
      (Stub.impl._platform_generate_auroprint Platform.fresh).1 = .ok r ∧
      r.device_id = "desktop-stub-id" ∧
      ((AuroprintResult.BoundMethod.set_device_id "tampered").call r).device_id = "tampered" ∧
      (AuroprintResult.BoundMethod.set_device_id "tampered").call r ≠ r := by
  refine ⟨_, Stub.generate_outcome Platform.fresh, rfl, rfl, ?_⟩
  intro h
  exact absurd (congrArg AuroprintResult.device_id h) (by decide)

/-- C13 as amended: of the methods bound for the caller, the eight getters
and `to_dictionary` leave every field of every result unchanged, and each of
the eight setters replaces exactly the field it names by its argument and
leaves the other seven fields unchanged. -/
theorem bound_methods_effect (r : AuroprintResult) :
    AuroprintResult.BoundMethod.get_device_id.call r = r ∧
    AuroprintResult.BoundMethod.get_payload.call r = r ∧
    AuroprintResult.BoundMethod.get_signature.call r = r ∧
    AuroprintResult.BoundMethod.get_public_key.call r = r ∧
    AuroprintResult.BoundMethod.get_attestation_chain.call r = r ∧
    AuroprintResult.BoundMethod.get_timestamp.call r = r ∧
    AuroprintResult.BoundMethod.get_nonce.call r = r ∧
    AuroprintResult.BoundMethod.get_is_hardware_backed.call r = r ∧
    AuroprintResult.BoundMethod.to_dictionary.call r = r ∧
    (∀ v, (AuroprintResult.BoundMethod.set_device_id v).call r = { r with device_id := v }) ∧
    (∀ v, (AuroprintResult.BoundMethod.set_payload v).call r = { r with payload := v }) ∧
    (∀ v, (AuroprintResult.BoundMethod.set_signature v).call r = { r with signature := v }) ∧
    (∀ v, (AuroprintResult.BoundMethod.set_public_key v).call r =
      { r with public_key := v }) ∧
    (∀ v, (AuroprintResult.BoundMethod.set_attestation_chain v).call r =
      { r with attestation_chain := v }) ∧
    (∀ v, (AuroprintResult.BoundMethod.set_timestamp v).call r = { r with timestamp := v }) ∧
    (∀ v, (AuroprintResult.BoundMethod.set_nonce v).call r = { r with nonce := v }) ∧
    (∀ v, (AuroprintResult.BoundMethod.set_is_hardware_backed v).call r =
      { r with is_hardware_backed := v }) :=
  ⟨rfl, rfl, rfl, rfl, rfl, rfl, rfl, rfl, rfl, fun _ => rfl, fun _ => rfl, fun _ => rfl,
   fun _ => rfl, fun _ => rfl, fun _ => rfl, fun _ => rfl, fun _ => rfl⟩

/-- The warnings in the log after `n` calls of `generate_auroprint` on the
stub: the ones before, followed by `n` copies of the desktop warning. -/
theorem Stub.warnings_after_calls (n : Nat) (s : Service) :
    (generate_auroprint_times Stub.impl n s).platform.warnings =
      s.platform.warnings ++ List.replicate n
        "Auroprint: Desktop platform detected. Returning stub data. Hardware-backed security is only available on Android/iOS." := by
  induction n with
  | zero => simp [generate_auroprint_times]
  | succ k ih =>
    have hstep : ∀ t : Service, (generate_auroprint Stub.impl t).2.platform.warnings =
        t.platform.warnings ++
          ["Auroprint: Desktop platform detected. Returning stub data. Hardware-backed security is only available on Android/iOS."] :=
      fun _ => rfl
    rw [generate_auroprint_times, hstep, ih, List.replicate_succ', List.append_assoc]

/-- C14 refuted at an instance: after two calls of `generate_auroprint` on a
fresh stub service the desktop warning is in the log twice. -/
theorem stub_warning_emitted_twice :
    (generate_auroprint_times Stub.impl 2 Service.fresh).platform.warnings =
      ["Auroprint: Desktop platform detected. Returning stub data. Hardware-backed security is only available on Android/iOS.",
       "Auroprint: Desktop platform detected. Returning stub data. Hardware-backed security is only available on Android/iOS."] ∧
    (generate_auroprint_times Stub.impl 2 Service.fresh).platform.warnings.count
      "Auroprint: Desktop platform detected. Returning stub data. Hardware-backed security is only available on Android/iOS." ≠ 1 := by
  have h : (generate_auroprint_times Stub.impl 2 Service.fresh).platform.warnings =
      ["Auroprint: Desktop platform detected. Returning stub data. Hardware-backed security is only available on Android/iOS.",
       "Auroprint: Desktop platform detected. Returning stub data. Hardware-backed security is only available on Android/iOS."] := by
    rfl
  refine ⟨h, ?_⟩
  rw [h]
  simp

/-- C14 as amended: on the stub the desktop warning is emitted by every call
of `generate_auroprint`: any `n` successive calls, from any service state,
append exactly `n` copies of it to the log and nothing else, so the number of
its occurrences grows by exactly `n`. -/
theorem stub_warning_once_per_call (n : Nat) (s : Service) :
    (generate_auroprint_times Stub.impl n s).platform.warnings =
      s.platform.warnings ++ List.replicate n
        "Auroprint: Desktop platform detected. Returning stub data. Hardware-backed security is only available on Android/iOS." ∧
    (generate_auroprint_times Stub.impl n s).platform.warnings.count
        "Auroprint: Desktop platform detected. Returning stub data. Hardware-backed security is only available on Android/iOS." =
      s.platform.warnings.count
        "Auroprint: Desktop platform detected. Returning stub data. Hardware-backed security is only available on Android/iOS." + n := by
  refine ⟨Stub.warnings_after_calls n s, ?_⟩
  rw [Stub.warnings_after_calls n s, List.count_append, List.count_replicate_self]

/-! ## Dispatch and failure messages -/

/-- C15 refuted at instances: when `generate_auroprint` returns to its caller
the provider call has already been made inside that invocation. On the stub
the warning of the provider is in the log, which was empty before; on Android
the foreign method `generateAuroprintSync` is among the calls made. -/
theorem provider_has_run_when_entry_point_returns :
    Service.fresh.platform.warnings = [] ∧
    (generate_auroprint Stub.impl Service.fresh).2.platform.warnings =
      ["Auroprint: Desktop platform detected. Returning stub data. Hardware-backed security is only available on Android/iOS."] ∧
    (generate_auroprint Stub.impl Service.fresh).2.platform.warnings ≠
      Service.fresh.platform.warnings ∧
    JniCall.CallObjectMethod "generateAuroprintSync" ∈
      new_calls Service.fresh
        (generate_auroprint (Android.impl (Android.Mock.jvm Android.Mock.env_missing_key))
          Service.fresh).2 := by
  refine ⟨rfl, rfl, ?_, ?_⟩
  · intro h
    exact absurd h (by decide)
  · decide

/-- C15 as amended: each public entry point is a direct call of its worker, so
the provider runs synchronously inside the invocation of the caller: when the
entry point returns, the platform is in the state the provider left behind
and the outcome has been determined. Only the delivery is deferred: exactly
one `emit_signal` has been put on the message queue with `call_deferred`. -/
theorem entry_points_call_worker_directly (op : Operation) (impl : PlatformImpl)
    (nonce : String) (cloud_project_number : Int) (s : Service) :
    generate_auroprint impl s = _generate_auroprint_worker impl s ∧
    is_hardware_backed_available impl s = _is_hardware_backed_available_worker impl s ∧
    reset_key impl s = _reset_key_worker impl s ∧
    request_integrity_token impl nonce cloud_project_number s =
      _request_integrity_token_worker impl nonce cloud_project_number s ∧
    (op.invoke impl nonce cloud_project_number s).2.platform =
      op.provider_platform impl nonce cloud_project_number s.platform ∧
    ∃ c, scheduled s (op.invoke impl nonce cloud_project_number s).2 = [c] ∧
      c.method = "emit_signal" := by
  refine ⟨rfl, rfl, rfl, rfl, ?_, ?_⟩
  · cases op
    · rcases h : impl._platform_generate_auroprint s.platform with ⟨_ | _, p⟩
      · rename_i e
        cases e <;>
          simp [Operation.invoke, Operation.provider_platform, generate_auroprint,
            _generate_auroprint_worker, h, Service.call_deferred]
      · simp [Operation.invoke, Operation.provider_platform, generate_auroprint,
          _generate_auroprint_worker, h, Service.call_deferred]
    · rcases h : impl._platform_is_hardware_backed_available s.platform with ⟨_ | _, p⟩
      · rename_i e
        cases e <;>
          simp [Operation.invoke, Operation.provider_platform, is_hardware_backed_available,
            _is_hardware_backed_available_worker, h, Service.call_deferred]
      · simp [Operation.invoke, Operation.provider_platform, is_hardware_backed_available,
          _is_hardware_backed_available_worker, h, Service.call_deferred]
    · rcases h : impl._platform_reset_key s.platform with ⟨_ | _, p⟩
      · rename_i e
        cases e <;>
          simp [Operation.invoke, Operation.provider_platform, reset_key, _reset_key_worker,
            h, Service.call_deferred]
      · simp [Operation.invoke, Operation.provider_platform, reset_key, _reset_key_worker,
          h, Service.call_deferred]
    · rcases h : impl._platform_request_integrity_token nonce cloud_project_number s.platform
        with ⟨_ | _, p⟩
      · rename_i e
        cases e <;>
          simp [Operation.invoke, Operation.provider_platform, request_integrity_token,
            _request_integrity_token_worker, h, Service.call_deferred]
      · simp [Operation.invoke, Operation.provider_platform, request_integrity_token,
          _request_integrity_token_worker, h, Service.call_deferred]
  · obtain ⟨c, hc, hshape⟩ := scheduled_invoke op impl nonce cloud_project_number s
    refine ⟨c, hc, ?_⟩
    rcases hshape with ⟨payload, rfl⟩ | ⟨what, rfl⟩ | rfl <;> rfl

/-- Dropping as many characters as the front part has from a concatenation
gives back the rear part. -/
theorem rear_part_recovered (front rear : String) :
    String.mk ((front ++ rear).data.drop front.length) = rear := by
  have h : (front ++ rear).data = front.data ++ rear.data := String.data_append front rear
  rw [h, String.length, List.drop_left]

/-- C16: for each operation and every provider, when the provider throws a
`std::exception` with message `m`, the one scheduled failure notification
carries the fixed intro of the operation followed by `m` unchanged, so `m` is
what remains after dropping the intro; when the provider throws anything
else, it carries the fixed unknown-error text of the operation, which is not
empty and starts with "Unknown error occurred while ". The intros are the
four texts "Failed to generate auroprint: ", "Failed to check hardware
support: ", "Failed to reset key: " and "Failed to request integrity
token: ". -/
theorem failure_message_surfaces_fault (op : Operation) (impl : PlatformImpl)
    (nonce : String) (cloud_project_number : Int) (s : Service) :
    (∀ m : String,
      op.provider_fault impl nonce cloud_project_number s.platform =
        some (.std_exception m) →
      scheduled s (op.invoke impl nonce cloud_project_number s).2 =
        [emit_signal op.failure_signal [.variant (.string (op.error_intro ++ m))]] ∧
      String.mk ((op.error_intro ++ m).data.drop op.error_intro.length) = m) ∧
    (op.provider_fault impl nonce cloud_project_number s.platform = some .other →
      scheduled s (op.invoke impl nonce cloud_project_number s).2 =
        [emit_signal op.failure_signal [.variant (.string op.unknown_error)]]) ∧
    op.unknown_error ≠ "" ∧
    (∃ rest, op.unknown_error = "Unknown error occurred while " ++ rest) ∧
    Operation.generate_auroprint.error_intro = "Failed to generate auroprint: " ∧
    Operation.is_hardware_backed_available.error_intro =
      "Failed to check hardware support: " ∧
    Operation.reset_key.error_intro = "Failed to reset key: " ∧
    Operation.request_integrity_token.error_intro = "Failed to request integrity token: " := by
  refine ⟨?_, ?_, ?_, ?_, rfl, rfl, rfl, rfl⟩
  · intro m hm
    refine ⟨?_, rear_part_recovered _ _⟩
    cases op
    · rcases h : impl._platform_generate_auroprint s.platform with ⟨_ | _, p⟩ <;>
        simp [Operation.provider_fault, h] at hm
      subst hm
      simp [Operation.invoke, generate_auroprint, _generate_auroprint_worker, h,
        Service.call_deferred, emit_signal, scheduled, Operation.failure_signal,
        Operation.error_intro]
    · rcases h : impl._platform_is_hardware_backed_available s.platform with ⟨_ | _, p⟩ <;>
        simp [Operation.provider_fault, h] at hm
      subst hm
      simp [Operation.invoke, is_hardware_backed_available,
        _is_hardware_backed_available_worker, h, Service.call_deferred, emit_signal,
        scheduled, Operation.failure_signal, Operation.error_intro]
    · rcases h : impl._platform_reset_key s.platform with ⟨_ | _, p⟩ <;>
        simp [Operation.provider_fault, h] at hm
      subst hm
      simp [Operation.invoke, reset_key, _reset_key_worker, h, Service.call_deferred,
        emit_signal, scheduled, Operation.failure_signal, Operation.error_intro]
    · rcases h : impl._platform_request_integrity_token nonce cloud_project_number
        s.platform with ⟨_ | _, p⟩ <;>
        simp [Operation.provider_fault, h] at hm
      subst hm
      simp [Operation.invoke, request_integrity_token, _request_integrity_token_worker, h,
        Service.call_deferred, emit_signal, scheduled, Operation.failure_signal,
        Operation.error_intro]
  · intro hm
    cases op
    · rcases h : impl._platform_generate_auroprint s.platform with ⟨_ | _, p⟩ <;>
        simp [Operation.provider_fault, h] at hm
      subst hm
      simp [Operation.invoke, generate_auroprint, _generate_auroprint_worker, h,
        Service.call_deferred, emit_signal, scheduled, Operation.failure_signal,
        Operation.unknown_error]
    · rcases h : impl._platform_is_hardware_backed_available s.platform with ⟨_ | _, p⟩ <;>
        simp [Operation.provider_fault, h] at hm
      subst hm
      simp [Operation.invoke, is_hardware_backed_available,
        _is_hardware_backed_available_worker, h, Service.call_deferred, emit_signal,
        scheduled, Operation.failure_signal, Operation.unknown_error]
    · rcases h : impl._platform_reset_key s.platform with ⟨_ | _, p⟩ <;>
        simp [Operation.provider_fault, h] at hm
      subst hm
      simp [Operation.invoke, reset_key, _reset_key_worker, h, Service.call_deferred,
        emit_signal, scheduled, Operation.failure_signal, Operation.unknown_error]
    · rcases h : impl._platform_request_integrity_token nonce cloud_project_number
        s.platform with ⟨_ | _, p⟩ <;>
        simp [Operation.provider_fault, h] at hm
      subst hm
      simp [Operation.invoke, request_integrity_token, _request_integrity_token_worker, h,
        Service.call_deferred, emit_signal, scheduled, Operation.failure_signal,
        Operation.unknown_error]
  · cases op <;> decide
  · cases op
    · exact ⟨"generating auroprint", by decide⟩
    · exact ⟨"checking hardware support", by decide⟩
    · exact ⟨"resetting key", by decide⟩
    · exact ⟨"requesting integrity token", by decide⟩

/-- C16 at instances: the stub `request_integrity_token`, whose provider
throws a `std::exception`, and `reset_key` on a provider that throws
something else. -/
theorem failure_message_surfaces_fault_witness :
    Operation.request_integrity_token.provider_fault Stub.impl "abc123" 42
        Service.fresh.platform =
      some (.std_exception "Integrity tokens are only supported on Android") ∧
    scheduled Service.fresh
        (Operation.request_integrity_token.invoke Stub.impl "abc123" 42 Service.fresh).2 =
      [emit_signal "integrity_token_error"
        [.variant (.string ("Failed to request integrity token: " ++
          "Integrity tokens are only supported on Android"))]] ∧
    scheduled Service.fresh
        (Operation.reset_key.invoke
          { Stub.impl with _platform_reset_key := fun p => (.error .other, p) }
          "" 0 Service.fresh).2 =
      [emit_signal "auroprint_error"
        [.variant (.string "Unknown error occurred while resetting key")]] :=
  ⟨rfl,
   ((failure_message_surfaces_fault .request_integrity_token Stub.impl "abc123" 42
      Service.fresh).1 "Integrity tokens are only supported on Android" rfl).1,
   (failure_message_surfaces_fault .reset_key
      { Stub.impl with _platform_reset_key := fun p => (.error .other, p) }
      "" 0 Service.fresh).2.1 rfl⟩

/-! ## Conversion of the foreign response -/

namespace Android

/-- The index loop of `jobject_list_to_array`, started at any position of a
list and with any array built so far, appends the strings of the remaining
elements in order and skips the null ones. -/
theorem list_loop_from (done rest : List (Option String)) (acc : List Variant) :
    ((List.range rest.length).map (· + done.length)).foldl
      (fun result i =>
        match ((done ++ rest).get? i).join with
        | some jstr => result ++ [Variant.string (jstring_to_godot_string (some jstr))]
        | none => result)
      acc =
    acc ++ rest.filterMap (fun item => item.map Variant.string) := by
  induction rest generalizing done acc with
  | nil => simp
  | cons a rest ih =>
    have hsplit : done ++ a :: rest = (done ++ [a]) ++ rest := by simp
    have hmap : (List.range (a :: rest).length).map (· + done.length) =
        done.length :: (List.range rest.length).map (· + (done ++ [a]).length) := by
      simp only [List.length_cons, List.range_succ_eq_map, List.map_cons, List.map_map,
        Nat.zero_add, List.length_append, List.length_nil, List.cons.injEq, true_and]
      apply List.map_congr_left
      intro i _
      simp only [Function.comp_apply]
      omega
    have hhead : (((done ++ [a]) ++ rest).get? done.length).join = a := by
      rw [← hsplit, List.get?_eq_getElem?, List.getElem?_append_right (Nat.le_refl _),
        Nat.sub_self]
      simp
    rw [hmap, List.foldl_cons, hsplit, ih, hhead]
    cases a with
    | none => simp
    | some jstr => simp [jstring_to_godot_string]

/-- The array `jobject_list_to_array` builds from a Java list: the strings of
its non-null elements, in the order of the list. -/
theorem jobject_list_to_array_eq (l : List (Option String)) :
    jobject_list_to_array (some l) = l.filterMap (fun item => item.map Variant.string) := by
  have h := list_loop_from [] l []
  simpa [jobject_list_to_array] using h

/-- A Java list without null elements is converted element by element. -/
theorem list_of_strings_converted (chain : List String) :
    jobject_list_to_array (some (chain.map some)) = chain.map Variant.string := by
  rw [jobject_list_to_array_eq, List.filterMap_map]
  induction chain with
  | nil => rfl
  | cons a rest ih =>
    simp only [List.filterMap_cons, Function.comp_apply, Option.map_some', List.map_cons,
      List.cons.injEq, true_and]
    exact ih

/-- C17: on Android, for every response map that holds under each of the
eight keys a non-null value of the expected Java type (strings under
`deviceId`, `payload`, `signature`, `publicKey` and `nonce`, a list of
strings under `attestationChain`, a `Long` under `timestamp`, a `Boolean`
under `isHardwareBacked`), the converted result has exactly those values in
its eight fields; its attestation chain has the length of the foreign list
and, at every index, the string the foreign list has there. -/
theorem conversion_preserves_fields (m : HashMap) (p : Platform)
    (device_id payload signature public_key : String) (chain : List String)
    (timestamp : Int) (nonce : String) (is_hardware_backed : Bool)
    (hdevice : m.get "deviceId" = some (JValue.ofString device_id))
    (hpayload : m.get "payload" = some (JValue.ofString payload))
    (hsignature : m.get "signature" = some (JValue.ofString signature))
    (hkey : m.get "publicKey" = some (JValue.ofString public_key))
    (hchain : m.get "attestationChain" = some (JValue.ofList (chain.map some)))
    (htimestamp : m.get "timestamp" = some (JValue.ofLong timestamp))
    (hnonce : m.get "nonce" = some (JValue.ofString nonce))
    (hflag : m.get "isHardwareBacked" = some (JValue.ofBoolean is_hardware_backed)) :
    (jobject_to_auroprint_result (some m) p).1 =
      { device_id := device_id
        payload := payload
        signature := signature
        public_key := public_key
        attestation_chain := chain.map Variant.string
        timestamp := timestamp
        nonce := nonce
        is_hardware_backed := is_hardware_backed } ∧
    (jobject_to_auroprint_result (some m) p).1.attestation_chain.length = chain.length ∧
    ∀ i : Nat, (jobject_to_auroprint_result (some m) p).1.attestation_chain[i]? =
      (chain[i]?).map Variant.string := by
  have hresult : (jobject_to_auroprint_result (some m) p).1 =
      { device_id := device_id
        payload := payload
        signature := signature
        public_key := public_key
        attestation_chain := chain.map Variant.string
        timestamp := timestamp
        nonce := nonce
        is_hardware_backed := is_hardware_backed } := by
    simp [jobject_to_auroprint_result, get_string, get_list, get_long, get_boolean, hdevice,
      hpayload, hsignature, hkey, hchain, htimestamp, hnonce, hflag, JValue.ofString,
      JValue.ofLong, JValue.ofBoolean, JValue.ofList, jstring_to_godot_string,
      list_of_strings_converted, AuroprintResult.new, AuroprintResult.set_device_id,
      AuroprintResult.set_payload, AuroprintResult.set_signature,
      AuroprintResult.set_public_key, AuroprintResult.set_attestation_chain,
      AuroprintResult.set_timestamp, AuroprintResult.set_nonce,
      AuroprintResult.set_is_hardware_backed]
  rw [hresult]
  refine ⟨rfl, by simp, ?_⟩
  intro i
  simp

/-- C17 at an instance: the complete response map is converted field by
field, and `generate_auroprint` delivers that record against a runtime whose
generator returns the map. -/
theorem conversion_preserves_fields_witness :
    Mock.complete_map.get "attestationChain" =
      some (JValue.ofList (["leaf", "intermediate", "root"].map some)) ∧
    (jobject_to_auroprint_result (some Mock.complete_map) Platform.fresh).1 =
      { device_id := "device-7"
        payload := "signed-payload"
        signature := "sig"
        public_key := "pub"
        attestation_chain := ["leaf", "intermediate", "root"].map Variant.string
        timestamp := 1700000000000
        nonce := "n-1"
        is_hardware_backed := true } ∧
    scheduled Service.fresh
        (generate_auroprint (impl (Mock.jvm Mock.env_complete)) Service.fresh).2 =
      [emit_signal "auroprint_generated"
        [.object { device_id := "device-7"
                   payload := "signed-payload"
                   signature := "sig"
                   public_key := "pub"
                   attestation_chain := [.string "leaf", .string "intermediate", .string "root"]
                   timestamp := 1700000000000
                   nonce := "n-1"
                   is_hardware_backed := true }]] :=
  ⟨rfl,
   (conversion_preserves_fields Mock.complete_map Platform.fresh "device-7" "signed-payload"
      "sig" "pub" ["leaf", "intermediate", "root"] 1700000000000 "n-1" true
      rfl rfl rfl rfl rfl rfl rfl rfl).1,
   rfl⟩

/-- A null element of the foreign list is skipped by the conversion: the
array is shorter than the list. -/
theorem null_elements_are_skipped :
    jobject_list_to_array (some [some "leaf", none, some "root"]) =
      [.string "leaf", .string "root"] := by
  rfl

end Android

/-! ## The runtime handle, from the answers of the foreign runtime -/

namespace Android

/-- The helper `get_jni_env` raises and clears no Java exception. -/
theorem get_jni_env_keeps_thread_state (g_jvm : Option JavaVM) (p : Platform) :
    (get_jni_env g_jvm p).2.pending_exception = p.pending_exception := by
  unfold get_jni_env
  cases g_jvm with
  | none => rfl
  | some vm =>
    simp only []
    split_ifs <;> rfl

/-- When the thread gets the environment `env`, `get_jni_env` hands it back. -/
theorem get_jni_env_of_attaches (vm : JavaVM) (env : JNIEnv) (p : Platform)
    (h : Attaches vm env) : (get_jni_env (some vm) p).1 = some env := by
  rcases h with ⟨h1, h2⟩ | ⟨h1, h2, h3⟩
  · simp [get_jni_env, h1, h2]
  · simp [get_jni_env, h1, h2, h3]

/-- When the thread gets no environment, `get_jni_env` hands back null. -/
theorem get_jni_env_of_no_environment (g_jvm : Option JavaVM) (p : Platform)
    (h : NoEnvironment g_jvm) : (get_jni_env g_jvm p).1 = none := by
  cases g_jvm with
  | none => rfl
  | some vm =>
    rcases h with ⟨h1, h2⟩ | ⟨h1, h2, h3⟩ | ⟨h1, h2⟩
    · simp [get_jni_env, h1, h2]
    · simp [get_jni_env, h1, h2, h3]
    · simp [get_jni_env, h1, h2]

/-- On an attached thread `get_activity` hands back an activity exactly when
the plugin singleton class, `getInstance`, the singleton, `getAndroidActivity`
and the activity are all found, and then it leaves no Java exception
behind. -/
theorem get_activity_of_attaches (vm : JavaVM) (env : JNIEnv) (p : Platform)
    (h : Attaches vm env) :
    (get_activity (some vm) p).1 =
      (env.FindClass AuroprintGodotPlugin &&
       env.GetStaticMethodID AuroprintGodotPlugin "getInstance"
         "()Lcom/madeofcode/auroprint/AuroprintGodotPlugin;" &&
       env.getInstance &&
       env.GetMethodID AuroprintGodotPlugin "getAndroidActivity" "()Landroid/app/Activity;" &&
       env.getAndroidActivity) ∧
    ((get_activity (some vm) p).1 = true →
      (get_activity (some vm) p).2.pending_exception = p.pending_exception) := by
  have he := get_jni_env_of_attaches vm env p h
  have hs := get_jni_env_keeps_thread_state (some vm) p
  unfold get_activity
  rcases hp : get_jni_env (some vm) p with ⟨v, q⟩
  rw [hp] at he hs
  simp only at he hs
  subst he
  simp only []
  cases h1 : env.FindClass AuroprintGodotPlugin <;>
    cases h2 : env.GetStaticMethodID AuroprintGodotPlugin "getInstance"
      "()Lcom/madeofcode/auroprint/AuroprintGodotPlugin;" <;>
    cases h3 : env.getInstance <;>
    cases h4 : env.GetMethodID AuroprintGodotPlugin "getAndroidActivity"
      "()Landroid/app/Activity;" <;>
    cases h5 : env.getAndroidActivity <;>
    simp [Platform.LOGE, Platform.call, Platform.lookup, hs]

/-- On an attached thread `get_kotlin_plugin_instance` hands back an object
when every step towards the companion object succeeds, and then it leaves no
Java exception behind. -/
theorem companion_found_gives_object (vm : JavaVM) (env : JNIEnv) (p : Platform)
    (h : Attaches vm env) (hfound : CompanionFound env) :
    (get_kotlin_plugin_instance (some vm) env p).1 = true ∧
    (get_kotlin_plugin_instance (some vm) env p).2.pending_exception =
      p.pending_exception := by
  obtain ⟨f1, f2, f3, f4, f5, f6, f7, f8⟩ := hfound
  obtain ⟨a1, a2⟩ := get_activity_of_attaches vm env
    (p.lookup (.FindClass AuroprintPluginSync) (env.FindClass AuroprintPluginSync)) h
  rw [f2, f3, f4, f5, f6] at a1
  have a3 := a2 a1
  unfold get_kotlin_plugin_instance
  rcases hq : get_activity (some vm)
    (p.lookup (.FindClass AuroprintPluginSync) (env.FindClass AuroprintPluginSync))
    with ⟨b, q⟩
  rw [hq] at a1 a3
  simp only at a1 a3
  subst a1
  replace a3 : q.pending_exception =
      (p.pending_exception || !env.FindClass AuroprintPluginSync) := a3
  simp only [hq]
  simp [f1, f7, f8, Platform.lookup, a3]

/-- On an attached thread `get_kotlin_plugin_instance` hands back null when
any step towards the companion object fails. -/
theorem companion_lost_gives_null (vm : JavaVM) (env : JNIEnv) (p : Platform)
    (h : Attaches vm env) (hlost : CompanionLost env) :
    (get_kotlin_plugin_instance (some vm) env p).1 = false := by
  obtain ⟨a1, -⟩ := get_activity_of_attaches vm env
    (p.lookup (.FindClass AuroprintPluginSync) (env.FindClass AuroprintPluginSync)) h
  unfold get_kotlin_plugin_instance
  rcases hq : get_activity (some vm)
    (p.lookup (.FindClass AuroprintPluginSync) (env.FindClass AuroprintPluginSync))
    with ⟨b, q⟩
  rw [hq] at a1
  simp only at a1
  subst a1
  simp only [hq]
  cases h0 : env.FindClass AuroprintPluginSync <;>
    cases h1 : env.FindClass AuroprintGodotPlugin <;>
    cases h2 : env.GetStaticMethodID AuroprintGodotPlugin "getInstance"
      "()Lcom/madeofcode/auroprint/AuroprintGodotPlugin;" <;>
    cases h3 : env.getInstance <;>
    cases h4 : env.GetMethodID AuroprintGodotPlugin "getAndroidActivity"
      "()Landroid/app/Activity;" <;>
    cases h5 : env.getAndroidActivity <;>
    cases h6 : env.GetMethodID AuroprintPluginSync "<init>" "(Landroid/content/Context;)V" <;>
    cases h7 : env.NewObject AuroprintPluginSync <;>
    simp [CompanionLost, h0, h1, h2, h3, h4, h5, h6, h7] at hlost ⊢

/-- The causes of a lost handle, seen by the helpers: the thread gets no
environment and `get_jni_env` hands back null, or it gets one and
`get_kotlin_plugin_instance` hands back null. -/
theorem handle_lost_gives_null (g_jvm : Option JavaVM) (p : Platform)
    (h : HandleLost g_jvm) :
    (get_jni_env g_jvm p).1 = none ∨
    ∃ env, (get_jni_env g_jvm p).1 = some env ∧
      (get_kotlin_plugin_instance g_jvm env p).1 = false := by
  rcases h with h | ⟨vm, env, rfl, ha, hl⟩
  · exact Or.inl (get_jni_env_of_no_environment g_jvm p h)
  · exact Or.inr ⟨env, get_jni_env_of_attaches vm env p ha,
      companion_lost_gives_null vm env p ha hl⟩

/-- C9: on Android, when the runtime handle cannot be obtained because the
JavaVM pointer is not initialised, the thread attach fails, no environment is
handed out, or any step of finding and constructing the companion object
fails (class, plugin singleton, activity or constructor not found,
construction yields null), each of the four operations lets no fault escape
and schedules exactly one deferred call, its failure signal carrying the
message of the failed step. The run invokes no operation of the companion
object, looks up the companion class and constructs it at most once, makes no
foreign call at all when the JavaVM pointer is not initialised, and when no
environment is obtained it makes at most one `GetEnv` and one
`AttachCurrentThread` and nothing else: no step is attempted a second time. -/
theorem runtime_handle_unobtainable_is_surfaced (g_jvm : Option JavaVM) (op : Operation)
    (nonce : String) (cloud_project_number : Int) (s : Service)
    (h : HandleLost g_jvm) :
    (op.invoke (impl g_jvm) nonce cloud_project_number s).1 = .ok () ∧
    (∃ what, (what = "Failed to get JNI environment" ∨
        what = "Failed to create Kotlin plugin instance") ∧
      scheduled s (op.invoke (impl g_jvm) nonce cloud_project_number s).2 =
        [emit_signal op.failure_signal [.variant (.string (op.error_intro ++ what))]]) ∧
    (∀ c ∈ scheduled s (op.invoke (impl g_jvm) nonce cloud_project_number s).2,
      c.signal_name = some op.failure_signal) ∧
    (∀ op' : Operation,
      op'.foreign_call ∉ new_calls s (op.invoke (impl g_jvm) nonce cloud_project_number s).2) ∧
    (new_calls s (op.invoke (impl g_jvm) nonce cloud_project_number s).2).count
      (.FindClass AuroprintPluginSync) ≤ 1 ∧
    (new_calls s (op.invoke (impl g_jvm) nonce cloud_project_number s).2).count
      (.NewObject AuroprintPluginSync) ≤ 1 ∧
    (NoEnvironment g_jvm →
      new_calls s (op.invoke (impl g_jvm) nonce cloud_project_number s).2 = [] ∨
      new_calls s (op.invoke (impl g_jvm) nonce cloud_project_number s).2 = [.GetEnv] ∨
      new_calls s (op.invoke (impl g_jvm) nonce cloud_project_number s).2 =
        [.GetEnv, .AttachCurrentThread]) ∧
    (g_jvm = none →
      new_calls s (op.invoke (impl g_jvm) nonce cloud_project_number s).2 = []) := by
  obtain ⟨r1, r2, r3, r4, r5, r6, r7⟩ :=
    null_handle_is_surfaced g_jvm op nonce cloud_project_number s
      (handle_lost_gives_null g_jvm s.platform h)
  refine ⟨r1, r2, r3, r4, r5, r6,
    fun hno => r7 (get_jni_env_of_no_environment g_jvm s.platform hno), ?_⟩
  intro hnone
  subst hnone
  rw [invoke_without_env none op nonce cloud_project_number s rfl]
  simp [new_calls, get_jni_env, Platform.LOGE]

/-- C9 at instances that reach the foreign runtime: `generate_auroprint` with
the JavaVM pointer never initialised, `reset_key` on a detached thread whose
attach fails, and `request_integrity_token` in a runtime where the
construction of the companion object yields null. -/
theorem runtime_handle_unobtainable_is_surfaced_witness :
    (HandleLost none ∧
      (Operation.generate_auroprint.invoke (impl none) "" 0 Service.fresh).1 = .ok () ∧
      (∀ c ∈ scheduled Service.fresh
          (Operation.generate_auroprint.invoke (impl none) "" 0 Service.fresh).2,
        c.signal_name = some "auroprint_error") ∧
      new_calls Service.fresh
          (Operation.generate_auroprint.invoke (impl none) "" 0 Service.fresh).2 = []) ∧
    (HandleLost Mock.jvm_attach_fails ∧
      (∀ c ∈ scheduled Service.fresh
          (Operation.reset_key.invoke (impl Mock.jvm_attach_fails) "" 0 Service.fresh).2,
        c.signal_name = some "auroprint_error") ∧
      (∀ op : Operation, op.foreign_call ∉ new_calls Service.fresh
          (Operation.reset_key.invoke (impl Mock.jvm_attach_fails) "" 0 Service.fresh).2) ∧
      new_calls Service.fresh
          (Operation.reset_key.invoke (impl Mock.jvm_attach_fails) "" 0 Service.fresh).2 =
        [.GetEnv, .AttachCurrentThread]) ∧
    (HandleLost (Mock.jvm Mock.env_construction_fails) ∧
      (∀ c ∈ scheduled Service.fresh
          (Operation.request_integrity_token.invoke
            (impl (Mock.jvm Mock.env_construction_fails)) "abc123" 42 Service.fresh).2,
        c.signal_name = some "integrity_token_error") ∧
      (∀ op : Operation, op.foreign_call ∉ new_calls Service.fresh
          (Operation.request_integrity_token.invoke
            (impl (Mock.jvm Mock.env_construction_fails)) "abc123" 42 Service.fresh).2) ∧
      (new_calls Service.fresh
          (Operation.request_integrity_token.invoke
            (impl (Mock.jvm Mock.env_construction_fails)) "abc123" 42 Service.fresh).2).count
        (.NewObject AuroprintPluginSync) = 1) := by
  have h1 : HandleLost none := Or.inl trivial
  have h2 : HandleLost Mock.jvm_attach_fails := Or.inl (Or.inl ⟨rfl, by decide⟩)
  have h3 : HandleLost (Mock.jvm Mock.env_construction_fails) :=
    Or.inr ⟨_, Mock.env_construction_fails, rfl, Or.inl ⟨by decide, rfl⟩,
      Or.inr (Or.inr (Or.inr (Or.inr (Or.inr (Or.inr (Or.inr rfl))))))⟩
  have t1 := runtime_handle_unobtainable_is_surfaced none .generate_auroprint "" 0
    Service.fresh h1
  have t2 := runtime_handle_unobtainable_is_surfaced Mock.jvm_attach_fails .reset_key "" 0
    Service.fresh h2
  have t3 := runtime_handle_unobtainable_is_surfaced (Mock.jvm Mock.env_construction_fails)
    .request_integrity_token "abc123" 42 Service.fresh h3
  exact ⟨⟨h1, t1.1, t1.2.2.1, t1.2.2.2.2.2.2.2 rfl⟩, ⟨h2, t2.2.2.1, t2.2.2.2.1, by rfl⟩,
    ⟨h3, t3.2.2.1, t3.2.2.2.1, by decide⟩⟩

/-! ## Operations on a thread without a pending Java exception -/

/-- On a thread without a pending Java exception, when the handle is obtained,
`requestIntegrityTokenSync` is found and the foreign call with that nonce and
number returns the string `token` without raising, the provider returns
`token` and `request_integrity_token` schedules exactly one deferred call,
`integrity_token_received` carrying exactly `token`. -/
theorem integrity_token_is_foreign_token (vm : JavaVM) (env : JNIEnv)
    (nonce : String) (cloud_project_number : Int) (token : String) (s : Service)
    (hattach : Attaches vm env) (hfound : CompanionFound env)
    (hmethod : env.GetMethodID AuroprintPluginSync "requestIntegrityTokenSync"
      "(Ljava/lang/String;J)Ljava/lang/String;" = true)
    (hvalue : (env.requestIntegrityTokenSync (some nonce) cloud_project_number).value =
      some token)
    (hquiet : (env.requestIntegrityTokenSync (some nonce)
      cloud_project_number).exception_pending = false)
    (hclean : s.platform.pending_exception = false) :
    (_platform_request_integrity_token (some vm) nonce cloud_project_number s.platform).1 =
      .ok token ∧
    (request_integrity_token (impl (some vm)) nonce cloud_project_number s).1 = .ok () ∧
    scheduled s (request_integrity_token (impl (some vm)) nonce cloud_project_number s).2 =
      [emit_signal "integrity_token_received" [.variant (.string token)]] := by
  have he := get_jni_env_of_attaches vm env s.platform hattach
  have hs := get_jni_env_keeps_thread_state (some vm) s.platform
  rcases hp : get_jni_env (some vm) s.platform with ⟨v, q⟩
  rw [hp] at he hs
  simp only at he hs
  subst he
  obtain ⟨k1, k2⟩ := companion_found_gives_object vm env q hattach hfound
  rcases hk : get_kotlin_plugin_instance (some vm) env q with ⟨b, q'⟩
  rw [hk] at k1 k2
  simp only at k1 k2
  subst k1
  have hq' : q'.pending_exception = false := by rw [k2, hs, hclean]
  simp [Auroprint.request_integrity_token, _request_integrity_token_worker, impl,
    _platform_request_integrity_token, hp, hk, hmethod, hvalue, hquiet, hfound.1, hq',
    godot_string_to_jstring, jstring_to_godot_string, Service.call_deferred, emit_signal,
    scheduled, Platform.lookup, Platform.invoke, Platform.call]

/-- The token echo at the instance of the specification: nonce "abc123" and
project number 42 against a mocked token service, on a fresh thread. -/
theorem integrity_token_is_foreign_token_instance :
    scheduled Service.fresh
        (request_integrity_token (impl (Mock.jvm Mock.env_complete)) "abc123" 42
          Service.fresh).2 =
      [emit_signal "integrity_token_received"
        [.variant (.string "eyJ.integrity.token")]] :=
  (integrity_token_is_foreign_token _ Mock.env_complete "abc123" 42 "eyJ.integrity.token"
    Service.fresh (Or.inl ⟨by decide, rfl⟩) ⟨rfl, rfl, rfl, rfl, rfl, rfl, rfl, rfl⟩ rfl
    (by decide) (by decide) rfl).2.2

/-- C6 at the failing input: in a runtime where only the hardware check
raises, after one call of `is_hardware_backed_available` the Java exception
is still pending on the thread; the following
`request_integrity_token("abc123", 42)`, whose foreign call returns the token
"eyJ.integrity.token" without raising, sees that exception in its
`ExceptionCheck` and schedules `integrity_token_error`, no
`integrity_token_received`. On the same runtime without the earlier call the
token is delivered. -/
theorem stale_exception_blocks_token :
    (Mock.env_check_raises.requestIntegrityTokenSync (some "abc123") 42).value =
      some "eyJ.integrity.token" ∧
    (Mock.env_check_raises.requestIntegrityTokenSync (some "abc123") 42).exception_pending =
      false ∧
    (is_hardware_backed_available (impl (Mock.jvm Mock.env_check_raises))
      Service.fresh).2.platform.pending_exception = true ∧
    scheduled
        (is_hardware_backed_available (impl (Mock.jvm Mock.env_check_raises)) Service.fresh).2
        (request_integrity_token (impl (Mock.jvm Mock.env_check_raises)) "abc123" 42
          (is_hardware_backed_available (impl (Mock.jvm Mock.env_check_raises))
            Service.fresh).2).2 =
      [emit_signal "integrity_token_error"
        [.variant (.string
          "Failed to request integrity token: Exception occurred while requesting integrity token")]] ∧
    scheduled Service.fresh
        (request_integrity_token (impl (Mock.jvm Mock.env_check_raises)) "abc123" 42
          Service.fresh).2 =
      [emit_signal "integrity_token_received"
        [.variant (.string "eyJ.integrity.token")]] := by
  refine ⟨by decide, by decide, rfl, rfl, rfl⟩

/-- C7 as amended: on Android, on a thread without a pending Java exception,
when the handle is obtained, `generateAuroprintSync` is found and the foreign
call returns a map `m` without raising, `generate_auroprint` does not fail
whatever keys `m` lacks: it lets no fault escape and schedules exactly one
deferred call, `auroprint_generated`, and in its result every field whose key
is absent from `m` has its default value (empty string, empty array, 0,
false). -/
theorem absent_keys_take_defaults (vm : JavaVM) (env : JNIEnv) (m : HashMap)
    (s : Service)
    (hattach : Attaches vm env) (hfound : CompanionFound env)
    (hmethod : env.GetMethodID AuroprintPluginSync "generateAuroprintSync"
      "()Ljava/util/HashMap;" = true)
    (hvalue : env.generateAuroprintSync.value = some m)
    (hquiet : env.generateAuroprintSync.exception_pending = false)
    (hclean : s.platform.pending_exception = false) :
    (generate_auroprint (impl (some vm)) s).1 = .ok () ∧
    ∃ r : AuroprintResult,
      scheduled s (generate_auroprint (impl (some vm)) s).2 =
        [emit_signal "auroprint_generated" [.object r]] ∧
      (m.get "deviceId" = none → r.device_id = "") ∧
      (m.get "payload" = none → r.payload = "") ∧
      (m.get "signature" = none → r.signature = "") ∧
      (m.get "publicKey" = none → r.public_key = "") ∧
      (m.get "attestationChain" = none → r.attestation_chain = []) ∧
      (m.get "timestamp" = none → r.timestamp = 0) ∧
      (m.get "nonce" = none → r.nonce = "") ∧
      (m.get "isHardwareBacked" = none → r.is_hardware_backed = false) := by
  have he := get_jni_env_of_attaches vm env s.platform hattach
  have hs := get_jni_env_keeps_thread_state (some vm) s.platform
  rcases hp : get_jni_env (some vm) s.platform with ⟨v, q⟩
  rw [hp] at he hs
  simp only at he hs
  subst he
  obtain ⟨k1, k2⟩ := companion_found_gives_object vm env
    (q.LOGD "Generating auroprint via JNI...") hattach hfound
  rcases hk : get_kotlin_plugin_instance (some vm) env
    (q.LOGD "Generating auroprint via JNI...") with ⟨b, q'⟩
  rw [hk] at k1 k2
  simp only at k1 k2
  subst k1
  have hq' : q'.pending_exception = false := by
    rw [k2]
    exact hs.trans hclean
  refine ⟨?_, (jobject_to_auroprint_result (some m) Platform.fresh).1, ?_, ?_⟩
  · simp [Auroprint.generate_auroprint, _generate_auroprint_worker, impl,
      _platform_generate_auroprint, hp, hk, hmethod, hvalue, hquiet, hfound.1, hq',
      Platform.lookup, Platform.invoke, Platform.call]
  · simp [Auroprint.generate_auroprint, _generate_auroprint_worker, impl,
      _platform_generate_auroprint, hp, hk, hmethod, hvalue, hquiet, hfound.1, hq',
      jobject_to_auroprint_result, Service.call_deferred, emit_signal, scheduled,
      Platform.lookup, Platform.invoke, Platform.call]
  · refine ⟨?_, ?_, ?_, ?_, ?_, ?_, ?_, ?_⟩ <;> intro habsent <;>
      simp [jobject_to_auroprint_result, get_string, get_list, get_long, get_boolean,
        habsent, AuroprintResult.new, AuroprintResult.set_device_id,
        AuroprintResult.set_payload, AuroprintResult.set_signature,
        AuroprintResult.set_public_key, AuroprintResult.set_attestation_chain,
        AuroprintResult.set_timestamp, AuroprintResult.set_nonce,
        AuroprintResult.set_is_hardware_backed]

/-- C7 as amended, at an instance: on a fresh thread the map without
`deviceId` yields a success notification whose result has the empty device
id. -/
theorem absent_keys_take_defaults_witness :
    Attaches { GetEnv := (JNI_OK, some Mock.env_missing_key),
               AttachCurrentThread := (JNI_OK, some Mock.env_missing_key) }
      Mock.env_missing_key ∧
    CompanionFound Mock.env_missing_key ∧
    Service.fresh.platform.pending_exception = false ∧
    Mock.map_without_device_id.get "deviceId" = none ∧
    ∃ r : AuroprintResult,
      scheduled Service.fresh
          (generate_auroprint (impl (Mock.jvm Mock.env_missing_key)) Service.fresh).2 =
        [emit_signal "auroprint_generated" [.object r]] ∧
      r.device_id = "" := by
  have ha : Attaches { GetEnv := (JNI_OK, some Mock.env_missing_key),
                       AttachCurrentThread := (JNI_OK, some Mock.env_missing_key) }
      Mock.env_missing_key := Or.inl ⟨by decide, rfl⟩
  have hf : CompanionFound Mock.env_missing_key := ⟨rfl, rfl, rfl, rfl, rfl, rfl, rfl, rfl⟩
  obtain ⟨-, r, hr, hdev, -⟩ :=
    absent_keys_take_defaults _ Mock.env_missing_key Mock.map_without_device_id
      Service.fresh ha hf rfl rfl rfl rfl
  exact ⟨ha, hf, rfl, rfl, r, hr, hdev rfl⟩

end Android

end Auroprint
